import Mathlib

/-!
Samsung MFC 5.x driver interface (mfc_dev.c): session lifecycle and command dispatch.

A shallow embedding of `mfc_open`, `mfc_release`, `mfc_suspend`, `mfc_resume`,
`mfc_ioctl` and `mfc_mmap` of `drivers/media/video/samsung/mfc5x/mfc_dev.c`.

Conventions of the embedding.

* C `int` values (return codes, `atomic_t inst_cnt`, result codes) are `Int`.  The
  session counter is not reduced modulo `2^32`: it counts live sessions, each of which
  owns a kernel allocation, and stays far below `2^31`.
* Every call into a collaborator (power controller, hardware command layer, buffer
  allocator, user-copy transport, mutex) is recorded, in program order, as an `Event`
  of the returned trace.  What the collaborator answers is an input of the embedded
  function (its "environment").
* `mutex_lock`/`mutex_unlock` are recorded as events; waiting for a contended mutex is
  not modelled.
* The `unsigned long` values of mfc_mmap are `Nat`, with the arithmetic reduced modulo
  `2^32` (the driver's targets are 32-bit ARM).  The page loops of the SYSMMU build need
  not terminate; they carry a bound on their iterations.
* Header constants that the file uses but does not define (result codes of
  `mfc_errno.h`, `ENCODER`, the build switches `SYSMMU_MFC_ON` and `CONFIG_S5P_VMEM`) are
  fields of `Config`.
-/

namespace Mfc

/-! ## errno values (include/asm-generic/errno-base.h) -/

def EIO : Int := 5
def ENOMEM : Int := 12
def ENODEV : Int := 19
def EINVAL : Int := 22

/-! ## Data model -/

/-- The instance states used by mfc_dev.c.  Modelled from the spec: the enum is declared
in mfc_inst.h, which is not among the sources at hand; section 4.3 lists the states
Created, DecodeInitialized and DecodeExecuting, in this order. -/
inductive inst_state where
  | INST_STATE_CREATED
  | INST_STATE_DEC_INIT
  | INST_STATE_DEC_EXE
deriving DecidableEq, Repr

/-- The fields of `struct mfc_inst_ctx` that mfc_dev.c reads or writes.  The back pointer
`dev` is left out: there is one device (`mfcdev`). -/
structure mfc_inst_ctx where
  id : Int
  state : inst_state
  userbase : Int
deriving DecidableEq, Repr

/-- The fields of `struct mfc_dev` that the embedded functions read or write:
`fw.state`, `inst_cnt` and `mem_ports`. -/
structure mfc_dev where
  fw_state : Int
  inst_cnt : Int
  mem_ports : Int
deriving DecidableEq, Repr

/-- Build switches and header constants used, but not defined, by mfc_dev.c. -/
structure Config where
  SYSMMU_MFC_ON : Bool
  CONFIG_S5P_VMEM : Bool
  MFC_OK : Int
  MFC_STATE_INVALID : Int
  MFC_INVALID_PARAM_FAIL : Int
  MFC_MEM_INVALID_ADDR_FAIL : Int
  ENCODER : Int
deriving DecidableEq, Repr

/-- The `type` member of `struct mfc_buf_alloc_arg`. -/
inductive buf_type where
  | DECODING
  | ENCODING
deriving DecidableEq, Repr

/-- One call into a collaborator, with the arguments that matter and the answer. -/
inductive Event where
  | mutex_lock
  | mutex_unlock
  | mfc_power_on (ret : Int)
  | mfc_power_off (ret : Int)
  | mfc_start (retcode : Int)
  | mfc_clock_on
  | mfc_clock_off
  | sysmmu_tlb_invalidate (right : Bool)
  | mfc_create_inst (ok : Bool)
  | mfc_destroy_inst (id : Int)
  | mfc_sleep (ret : Int)
  | mfc_wakeup (ret : Int)
  | copy_from_user (ret : Int)
  | copy_to_user (ret : Int)
  | mfc_init_decoding (ret : Int)
  | mfc_exec_decoding (ret : Int)
  | mfc_alloc_buf (type : buf_type) (size : Int) (port : Int) (ret : Int)
  | mfc_free_buf (u_addr : Int) (ret : Int)
  | mfc_get_buf_real (id : Int) (u_addr : Int) (p_addr : Int)
  | mfc_mem_data_size (port : Int) (size : Int)
  | mfc_set_inst_cfg (param : Int) (value : Int) (ret : Int)
deriving DecidableEq, Repr

/-- The block compiled under `#ifdef SYSMMU_MFC_ON` in mfc_open and mfc_release:
clock on, invalidate both TLBs, clock off. -/
def sysmmu_flush (cfg : Config) : List Event :=
  if cfg.SYSMMU_MFC_ON then
    [Event.mfc_clock_on, Event.sysmmu_tlb_invalidate false,
     Event.sysmmu_tlb_invalidate true, Event.mfc_clock_off]
  else []

/-! ## mfc_open -/

/-- Modelled from the spec: mfc_create_inst is defined in mfc_inst.c, which is not among
the sources at hand.  Section 4.2: it allocates and zero-initialises a session record and
sets its state to Created; it fails (NULL) when the allocation fails.  The argument says
whether the allocation succeeds. -/
def mfc_create_inst (alloc_ok : Bool) : Option mfc_inst_ctx :=
  if alloc_ok then
    some { id := 0, state := inst_state.INST_STATE_CREATED, userbase := 0 }
  else none

/-- What the collaborators answer during one mfc_open, should they be called. -/
structure open_env where
  power_on_ret : Int
  start_ret : Int
  alloc_ok : Bool
  power_off_ret : Int
deriving DecidableEq, Repr

/-- What mfc_open leaves behind: its return value, the device, `file->private_data`
(none when it was not assigned) and the collaborator calls made. -/
structure open_result where
  ret : Int
  dev : mfc_dev
  private_data : Option mfc_inst_ctx
  trace : List Event
deriving DecidableEq, Repr

/-- The tail of mfc_open from the labels `err_inst_ctx:` / `err_start_hw:` on, entered with
the value `ret` holds at the `goto`. -/
def mfc_open_err_start_hw (env : open_env) (dev : mfc_dev) (ret : Int)
    (trace : List Event) : open_result :=
  if dev.inst_cnt = 0 then
    -- ret = mfc_power_off(); if (ret < 0) mfc_err(...);
    { ret := env.power_off_ret, dev := dev, private_data := none,
      trace := trace ++ [Event.mfc_power_off env.power_off_ret, Event.mutex_unlock] }
  else
    { ret := ret, dev := dev, private_data := none,
      trace := trace ++ [Event.mutex_unlock] }

/-- The part of mfc_open from `mfc_ctx = mfc_create_inst();` on. -/
def mfc_open_create (env : open_env) (dev : mfc_dev) (trace : List Event) : open_result :=
  match mfc_create_inst env.alloc_ok with
  | none =>
    mfc_open_err_start_hw env dev (- ENOMEM) (trace ++ [Event.mfc_create_inst false])
  | some mfc_ctx =>
    { ret := 0, dev := { dev with inst_cnt := dev.inst_cnt + 1 },
      private_data := some mfc_ctx,
      trace := trace ++ [Event.mfc_create_inst true, Event.mutex_unlock] }

/-- The function mfc_open (lines 55-121). -/
def mfc_open (cfg : Config) (env : open_env) (dev : mfc_dev) : open_result :=
  if dev.fw_state = 0 then
    { ret := - ENODEV, dev := dev, private_data := none,
      trace := [Event.mutex_lock, Event.mutex_unlock] }
  else if dev.inst_cnt = 0 then
    if env.power_on_ret < 0 then
      { ret := env.power_on_ret, dev := dev, private_data := none,
        trace := [Event.mutex_lock, Event.mfc_power_on env.power_on_ret,
                  Event.mutex_unlock] }
    else if env.start_ret ≠ cfg.MFC_OK then
      mfc_open_err_start_hw env dev (- ENODEV)
        [Event.mutex_lock, Event.mfc_power_on env.power_on_ret,
         Event.mfc_start env.start_ret]
    else
      mfc_open_create env dev
        ([Event.mutex_lock, Event.mfc_power_on env.power_on_ret,
          Event.mfc_start env.start_ret] ++ sysmmu_flush cfg)
  else
    mfc_open_create env dev [Event.mutex_lock]

/-! ## mfc_release -/

/-- What mfc_release leaves behind. -/
structure release_result where
  ret : Int
  dev : mfc_dev
  trace : List Event
deriving DecidableEq, Repr

/-- The function mfc_release (lines 123-167), called on a file whose `private_data` is the
session `mfc_ctx`; `power_off_ret` is what mfc_power_off answers, should it be called. -/
def mfc_release (cfg : Config) (power_off_ret : Int) (dev : mfc_dev)
    (mfc_ctx : mfc_inst_ctx) : release_result :=
  let trace := [Event.mutex_lock] ++ sysmmu_flush cfg ++ [Event.mfc_destroy_inst mfc_ctx.id]
  let dev := { dev with inst_cnt := dev.inst_cnt - 1 }
  if dev.inst_cnt = 0 then
    if power_off_ret < 0 then
      { ret := power_off_ret, dev := dev,
        trace := trace ++ [Event.mfc_power_off power_off_ret, Event.mutex_unlock] }
    else
      { ret := 0, dev := dev,
        trace := trace ++ [Event.mfc_power_off power_off_ret, Event.mutex_unlock] }
  else
    { ret := 0, dev := dev, trace := trace ++ [Event.mutex_unlock] }

/-! ## mfc_suspend, mfc_resume -/

/-- What mfc_suspend and mfc_resume leave behind. -/
structure pm_result where
  ret : Int
  dev : mfc_dev
  trace : List Event
deriving DecidableEq, Repr

/-- The function mfc_suspend (lines 948-963); `sleep_ret` is what mfc_sleep answers. -/
def mfc_suspend (sleep_ret : Int) (dev : mfc_dev) : pm_result :=
  if dev.inst_cnt = 0 then
    { ret := 0, dev := dev, trace := [] }
  else
    { ret := sleep_ret, dev := dev,
      trace := [Event.mutex_lock, Event.mfc_sleep sleep_ret, Event.mutex_unlock] }

/-- The function mfc_resume (lines 965-980); `wakeup_ret` is what mfc_wakeup answers. -/
def mfc_resume (wakeup_ret : Int) (dev : mfc_dev) : pm_result :=
  if dev.inst_cnt = 0 then
    { ret := 0, dev := dev, trace := [] }
  else
    { ret := wakeup_ret, dev := dev,
      trace := [Event.mutex_lock, Event.mfc_wakeup wakeup_ret, Event.mutex_unlock] }

/-! ## Observations on traces -/

/-- Number of mfc_power_off calls in a trace. -/
def power_off_calls : List Event → Nat
  | [] => 0
  | Event.mfc_power_off _ :: es => power_off_calls es + 1
  | _ :: es => power_off_calls es

/-- Number of mfc_power_on calls in a trace. -/
def power_on_calls : List Event → Nat
  | [] => 0
  | Event.mfc_power_on _ :: es => power_on_calls es + 1
  | _ :: es => power_on_calls es

/-- Number of mfc_start (hardware bring-up) calls in a trace. -/
def start_calls : List Event → Nat
  | [] => 0
  | Event.mfc_start _ :: es => start_calls es + 1
  | _ :: es => start_calls es

/-- Number of mfc_sleep calls in a trace. -/
def sleep_calls : List Event → Nat
  | [] => 0
  | Event.mfc_sleep _ :: es => sleep_calls es + 1
  | _ :: es => sleep_calls es

/-- Number of mfc_wakeup calls in a trace. -/
def wakeup_calls : List Event → Nat
  | [] => 0
  | Event.mfc_wakeup _ :: es => wakeup_calls es + 1
  | _ :: es => wakeup_calls es

/-- The power state after a trace, starting from `pwr`: a power call that succeeded
(answered a value that is not negative, the test mfc_dev.c applies) is a transition, a
power call that failed leaves the state as it was. -/
def power_after (pwr : Bool) : List Event → Bool
  | [] => pwr
  | Event.mfc_power_on r :: es => power_after (if r < 0 then pwr else true) es
  | Event.mfc_power_off r :: es => power_after (if r < 0 then pwr else false) es
  | _ :: es => power_after pwr es

/-- No mfc_power_off call of the trace failed. -/
def power_off_never_failed : List Event → Bool
  | [] => true
  | Event.mfc_power_off r :: es => decide (0 ≤ r) && power_off_never_failed es
  | _ :: es => power_off_never_failed es

/-! ## Sequences of opens and closes on one device -/

/-- One device together with the files that are open on it, the collaborator calls made
so far, and two history counters: the opens that produced a session and the closes. -/
structure System where
  dev : mfc_dev
  files : List mfc_inst_ctx
  trace : List Event
  opened : Nat
  closed : Nat
deriving DecidableEq, Repr

/-- A call of the session lifecycle: an open (with the answers of the collaborators), or a
close of the open file number `file` (with the answer of mfc_power_off). -/
inductive Call where
  | do_open (env : open_env)
  | do_close (file : Nat) (power_off_ret : Int)
deriving DecidableEq, Repr

/-- The device after probe (`atomic_set(&mfcdev->inst_cnt, 0)`), nothing open, nothing
called yet; `fw_state` and `mem_ports` are what firmware loading and the memory manager left. -/
def System.init (fw_state : Int) (mem_ports : Int) : System :=
  { dev := { fw_state := fw_state, inst_cnt := 0, mem_ports := mem_ports },
    files := [], trace := [], opened := 0, closed := 0 }

/-- One lifecycle call.  An open that assigned `private_data` adds the session to the open
files.  A close of a file that is not open is outside the driver's contract: none. -/
def System.step (cfg : Config) (s : System) : Call → Option System
  | Call.do_open env =>
    let r := mfc_open cfg env s.dev
    match r.private_data with
    | some mfc_ctx =>
      some { dev := r.dev, files := s.files ++ [mfc_ctx], trace := s.trace ++ r.trace,
             opened := s.opened + 1, closed := s.closed }
    | none =>
      some { dev := r.dev, files := s.files, trace := s.trace ++ r.trace,
             opened := s.opened, closed := s.closed }
  | Call.do_close file power_off_ret =>
    match s.files.get? file with
    | some mfc_ctx =>
      let r := mfc_release cfg power_off_ret s.dev mfc_ctx
      some { dev := r.dev, files := s.files.eraseIdx file, trace := s.trace ++ r.trace,
             opened := s.opened, closed := s.closed + 1 }
    | none => none

/-- A sequence of lifecycle calls, in order. -/
def System.run (cfg : Config) (s : System) : List Call → Option System
  | [] => some s
  | c :: cs =>
    match System.step cfg s c with
    | some s1 => System.run cfg s1 cs
    | none => none

/-! ## mfc_ioctl -/

/-- The command codes that the `switch` of mfc_ioctl distinguishes.  The numeric values of
the case labels are defined in mfc_user.h, which is not among the sources at hand: a
command is given by the case label it equals, or as `other code` when it equals none. -/
inductive ioctl_cmd where
  | IOCTL_MFC_DEC_INIT
  | IOCTL_MFC_DEC_EXE
  | IOCTL_MFC_GET_IN_BUF
  | IOCTL_MFC_FREE_BUF
  | IOCTL_MFC_GET_PHYS_ADDR
  | IOCTL_MFC_GET_MMAP_SIZE
  | IOCTL_MFC_SET_CONFIG
  | other (code : Nat)
deriving DecidableEq, Repr

/-- The members of the union `args` of `struct mfc_common_args` that mfc_ioctl itself reads
or writes.  The overlay of the union members in memory is not modelled. -/
structure mfc_args where
  mem_alloc_dec_enc_type : Int
  mem_alloc_buff_size : Int
  mem_alloc_out_addr : Int
  mem_alloc_cookie : Int
  mem_free_u_addr : Int
  get_phys_addr_u_addr : Int
  get_phys_addr_p_addr : Int
  set_config_in_config_param : Int
  set_config_in_config_value : Int
deriving DecidableEq, Repr

/-- The command envelope `struct mfc_common_args`. -/
structure mfc_common_args where
  ret_code : Int
  args : mfc_args
deriving DecidableEq, Repr

/-- What the collaborators answer during one mfc_ioctl, should they be called:
`in_param` is the content of the local envelope after copy_from_user; the hardware command
layer answers a status and the content it leaves in `in_param.args`; the allocator answers
a status together with `buf_arg.user` and `buf_arg.cookie`. -/
structure ioctl_env where
  copy_from_user_ret : Int
  in_param : mfc_common_args
  init_decoding_ret : Int
  init_decoding_args : mfc_args
  exec_decoding_ret : Int
  exec_decoding_args : mfc_args
  alloc_buf_ret : Int
  buf_arg_user : Int
  buf_arg_cookie : Int
  free_buf_ret : Int
  get_buf_real_ret : Int
  mem_data_size : Nat → Int
  set_inst_cfg_ret : Int
  copy_to_user_ret : Int

/-- What mfc_ioctl leaves behind: its return value, the session, the envelope handed to
copy_to_user, and the collaborator calls made. -/
structure ioctl_result where
  ret : Int
  mfc_ctx : mfc_inst_ctx
  in_param : mfc_common_args
  trace : List Event
deriving DecidableEq, Repr

/-- Modelled from the spec: mfc_chk_inst_state is defined in mfc_inst.c, which is not
among the sources at hand.  Section 4.3 gives each checked command one required state and
answers InvalidState on a precondition failure: the check is negative exactly when the
session is not in the required state. -/
def mfc_chk_inst_state (ctx : mfc_inst_ctx) (state : inst_state) : Int :=
  if ctx.state = state then 0 else -1

/-- Modelled from the spec: mfc_set_inst_state is defined in mfc_inst.c, which is not
among the sources at hand.  Section 4.3: the session is in the resulting state of the
transition table afterwards.  (mfc_ioctl ignores its return value.) -/
def mfc_set_inst_state (ctx : mfc_inst_ctx) (state : inst_state) : mfc_inst_ctx :=
  { ctx with state := state }

/-- Conversion to C `int` (two's complement, 32 bits). -/
def to_int (x : Int) : Int := (x + 2147483648) % 4294967296 - 2147483648

/-- The loop `for (i = 0; i < dev->mem_ports; i++) ret += mfc_mem_data_size(i);` over the
ports still to visit, from the current `ret` and trace. -/
def mmap_size_loop (env : ioctl_env) : List Nat → Int × List Event → Int × List Event
  | [], acc => acc
  | i :: ports, (ret, trace) =>
    mmap_size_loop env ports
      (to_int (ret + env.mem_data_size i),
       trace ++ [Event.mfc_mem_data_size i (env.mem_data_size i)])

/-- The tail of mfc_ioctl from the label `out_ioctl:` on, entered with the current `ret`,
envelope, session and trace. -/
def mfc_ioctl_out (env : ioctl_env) (ret : Int) (in_param : mfc_common_args)
    (mfc_ctx : mfc_inst_ctx) (trace : List Event) : ioctl_result :=
  { ret := if env.copy_to_user_ret < 0 then - EIO else ret,
    mfc_ctx := mfc_ctx, in_param := in_param,
    trace := trace ++ [Event.copy_to_user env.copy_to_user_ret] }

/-- The `switch (cmd)` of mfc_ioctl (lines 213-450), continued to the return; `trace` holds
the calls made before the switch. -/
def mfc_ioctl_switch (cfg : Config) (env : ioctl_env) (dev : mfc_dev)
    (mfc_ctx : mfc_inst_ctx) (cmd : ioctl_cmd) (trace : List Event) : ioctl_result :=
  let in_param := env.in_param
  match cmd with
  | ioctl_cmd.IOCTL_MFC_DEC_INIT =>
    if mfc_chk_inst_state mfc_ctx inst_state.INST_STATE_CREATED < 0 then
      mfc_ioctl_out env (- EINVAL) { in_param with ret_code := cfg.MFC_STATE_INVALID }
        mfc_ctx (trace ++ [Event.mutex_lock])
    else
      mfc_ioctl_out env env.init_decoding_ret
        { ret_code := env.init_decoding_ret, args := env.init_decoding_args }
        (mfc_set_inst_state mfc_ctx inst_state.INST_STATE_DEC_INIT)
        (trace ++ [Event.mutex_lock, Event.mfc_clock_on,
                   Event.mfc_init_decoding env.init_decoding_ret, Event.mfc_clock_off,
                   Event.mutex_unlock])
  | ioctl_cmd.IOCTL_MFC_DEC_EXE =>
    mfc_ioctl_out env env.exec_decoding_ret
      { ret_code := env.exec_decoding_ret, args := env.exec_decoding_args }
      (mfc_set_inst_state mfc_ctx inst_state.INST_STATE_DEC_EXE)
      (trace ++ [Event.mfc_clock_on, Event.mfc_exec_decoding env.exec_decoding_ret,
                 Event.mfc_clock_off])
  | ioctl_cmd.IOCTL_MFC_GET_IN_BUF =>
    if mfc_chk_inst_state mfc_ctx inst_state.INST_STATE_CREATED < 0 then
      mfc_ioctl_out env (- EINVAL) { in_param with ret_code := cfg.MFC_STATE_INVALID }
        mfc_ctx trace
    else
      let buf_type := if in_param.args.mem_alloc_dec_enc_type = cfg.ENCODER
        then buf_type.ENCODING else buf_type.DECODING
      let port : Int := if in_param.args.mem_alloc_dec_enc_type = cfg.ENCODER then 1 else 0
      let args1 := { in_param.args with mem_alloc_out_addr := env.buf_arg_user }
      let args2 := if cfg.CONFIG_S5P_VMEM
        then { args1 with mem_alloc_cookie := env.buf_arg_cookie } else args1
      mfc_ioctl_out env env.alloc_buf_ret
        { ret_code := env.alloc_buf_ret, args := args2 } mfc_ctx
        (trace ++ [Event.mfc_alloc_buf buf_type in_param.args.mem_alloc_buff_size port
                     env.alloc_buf_ret])
  | ioctl_cmd.IOCTL_MFC_FREE_BUF =>
    mfc_ioctl_out env env.free_buf_ret { in_param with ret_code := env.free_buf_ret }
      mfc_ctx (trace ++ [Event.mfc_free_buf in_param.args.mem_free_u_addr env.free_buf_ret])
  | ioctl_cmd.IOCTL_MFC_GET_PHYS_ADDR =>
    if mfc_chk_inst_state mfc_ctx inst_state.INST_STATE_CREATED < 0 then
      mfc_ioctl_out env (- EINVAL) { in_param with ret_code := cfg.MFC_STATE_INVALID }
        mfc_ctx trace
    else
      let ret_code := if env.get_buf_real_ret ≠ 0
        then cfg.MFC_OK else cfg.MFC_MEM_INVALID_ADDR_FAIL
      mfc_ioctl_out env ret_code
        { ret_code := ret_code,
          args := { in_param.args with get_phys_addr_p_addr := env.get_buf_real_ret } }
        mfc_ctx
        (trace ++ [Event.mfc_get_buf_real mfc_ctx.id in_param.args.get_phys_addr_u_addr
                     env.get_buf_real_ret])
  | ioctl_cmd.IOCTL_MFC_GET_MMAP_SIZE =>
    if mfc_chk_inst_state mfc_ctx inst_state.INST_STATE_CREATED < 0 then
      mfc_ioctl_out env (- EINVAL) { in_param with ret_code := cfg.MFC_STATE_INVALID }
        mfc_ctx trace
    else
      let sum := mmap_size_loop env (List.range dev.mem_ports.toNat) (0, trace)
      mfc_ioctl_out env sum.1 { in_param with ret_code := cfg.MFC_OK } mfc_ctx sum.2
  | ioctl_cmd.IOCTL_MFC_SET_CONFIG =>
    mfc_ioctl_out env env.set_inst_cfg_ret { in_param with ret_code := env.set_inst_cfg_ret }
      mfc_ctx
      (trace ++ [Event.mutex_lock,
                 Event.mfc_set_inst_cfg in_param.args.set_config_in_config_param
                   in_param.args.set_config_in_config_value env.set_inst_cfg_ret,
                 Event.mutex_unlock])
  | ioctl_cmd.other _ =>
    mfc_ioctl_out env cfg.MFC_OK { in_param with ret_code := cfg.MFC_OK } mfc_ctx trace

/-- The function mfc_ioctl (lines 170-466), called on a file whose `private_data` is the
session `mfc_ctx` of device `dev`. -/
def mfc_ioctl (cfg : Config) (env : ioctl_env) (dev : mfc_dev) (mfc_ctx : mfc_inst_ctx)
    (cmd : ioctl_cmd) : ioctl_result :=
  if env.copy_from_user_ret < 0 then
    mfc_ioctl_out env (- EIO) { env.in_param with ret_code := cfg.MFC_INVALID_PARAM_FAIL }
      mfc_ctx [Event.mutex_lock, Event.copy_from_user env.copy_from_user_ret]
  else
    mfc_ioctl_switch cfg env dev mfc_ctx cmd
      [Event.mutex_lock, Event.copy_from_user env.copy_from_user_ret, Event.mutex_unlock]

/-- A sequence of commands dispatched on one session, each with the answers of the
collaborators during that call: the session after the last call. -/
def ioctl_run (cfg : Config) (dev : mfc_dev) (mfc_ctx : mfc_inst_ctx) :
    List (ioctl_cmd × ioctl_env) → mfc_inst_ctx
  | [] => mfc_ctx
  | (cmd, env) :: rest => ioctl_run cfg dev (mfc_ioctl cfg env dev mfc_ctx cmd).mfc_ctx rest

/-- A call of the hardware command layer or of the buffer allocator (the clock toggles
around a hardware command included); mutex and user-copy events are not. -/
def Event.is_hw_or_alloc : Event → Bool
  | Event.mfc_clock_on => true
  | Event.mfc_clock_off => true
  | Event.mfc_init_decoding _ => true
  | Event.mfc_exec_decoding _ => true
  | Event.mfc_alloc_buf _ _ _ _ => true
  | Event.mfc_free_buf _ _ => true
  | Event.mfc_get_buf_real _ _ _ => true
  | Event.mfc_mem_data_size _ _ => true
  | Event.mfc_set_inst_cfg _ _ _ => true
  | Event.mfc_start _ => true
  | _ => false

/-- The position of a state in the order Created, DecodeInitialized, DecodeExecuting. -/
def inst_state.rank : inst_state → Nat
  | inst_state.INST_STATE_CREATED => 0
  | inst_state.INST_STATE_DEC_INIT => 1
  | inst_state.INST_STATE_DEC_EXE => 2

/-- A sample build, used where a claim is evaluated on a concrete input: no SYSMMU, no VMEM;
the result codes are sample values, pairwise different, with MFC_OK positive. -/
def sample_cfg : Config :=
  { SYSMMU_MFC_ON := false, CONFIG_S5P_VMEM := false, MFC_OK := 1,
    MFC_STATE_INVALID := -4000, MFC_INVALID_PARAM_FAIL := -6009,
    MFC_MEM_INVALID_ADDR_FAIL := -6005, ENCODER := 1 }

/-- A device whose firmware is loaded, with `n` live sessions and two memory ports. -/
def sample_dev (n : Int) : mfc_dev := { fw_state := 1, inst_cnt := n, mem_ports := 2 }

/-- A session as mfc_create_inst leaves it: state Created. -/
def sample_ctx : mfc_inst_ctx := { id := 0, state := inst_state.INST_STATE_CREATED, userbase := 0 }

/-- Sample arguments: a decoder buffer request of 4096 bytes. -/
def sample_args : mfc_args :=
  { mem_alloc_dec_enc_type := 0, mem_alloc_buff_size := 4096, mem_alloc_out_addr := 0,
    mem_alloc_cookie := 0, mem_free_u_addr := 0, get_phys_addr_u_addr := 0,
    get_phys_addr_p_addr := 0, set_config_in_config_param := 0,
    set_config_in_config_value := 0 }

/-- Sample answers of the collaborators during one mfc_ioctl: both user copies succeed (0),
mfc_init_decoding answers `init_ret`, mfc_exec_decoding answers `exec_ret`, the allocator
succeeds (with sample_cfg: MFC_OK = 1) and every port holds 4096 bytes. -/
def sample_env (init_ret exec_ret : Int) : ioctl_env :=
  { copy_from_user_ret := 0, in_param := { ret_code := 0, args := sample_args },
    init_decoding_ret := init_ret, init_decoding_args := sample_args,
    exec_decoding_ret := exec_ret, exec_decoding_args := sample_args,
    alloc_buf_ret := 1, buf_arg_user := 4096, buf_arg_cookie := 0, free_buf_ret := 1,
    get_buf_real_ret := 8192, mem_data_size := fun _ => 4096, set_inst_cfg_ret := 1,
    copy_to_user_ret := 0 }

/-! ## The device lock along a trace -/

/-- The device lock as a held/free flag: its value after a trace, starting from `held`. -/
def lock_after (held : Bool) : List Event → Bool
  | [] => held
  | Event.mutex_lock :: es => lock_after true es
  | Event.mutex_unlock :: es => lock_after false es
  | _ :: es => lock_after held es

/-- Some copy_from_user of the trace is made while the lock flag says held. -/
def copy_in_under_lock (held : Bool) : List Event → Bool
  | [] => false
  | Event.mutex_lock :: es => copy_in_under_lock true es
  | Event.mutex_unlock :: es => copy_in_under_lock false es
  | Event.copy_from_user _ :: es => held || copy_in_under_lock held es
  | _ :: es => copy_in_under_lock held es

/-- Some copy_to_user of the trace is made while the lock flag says held. -/
def copy_out_under_lock (held : Bool) : List Event → Bool
  | [] => false
  | Event.mutex_lock :: es => copy_out_under_lock true es
  | Event.mutex_unlock :: es => copy_out_under_lock false es
  | Event.copy_to_user _ :: es => held || copy_out_under_lock held es
  | _ :: es => copy_out_under_lock held es

/-- Number of mutex_lock calls in a trace. -/
def lock_calls : List Event → Nat
  | [] => 0
  | Event.mutex_lock :: es => lock_calls es + 1
  | _ :: es => lock_calls es

/-- Number of mutex_unlock calls in a trace. -/
def unlock_calls : List Event → Nat
  | [] => 0
  | Event.mutex_unlock :: es => unlock_calls es + 1
  | _ :: es => unlock_calls es

/-! ## mfc_mmap -/

/-- The modulus of `unsigned long` arithmetic on the 32-bit ARM targets of the driver. -/
def ULONG_MOD : Nat := 4294967296

/-- Addition of `unsigned long` values. -/
def ulong_add (a b : Nat) : Nat := (a + b) % ULONG_MOD

/-- The fields of `struct vm_area_struct` that mfc_mmap reads or writes: the bounds, whether
`VM_RESERVED | VM_IO` was or-ed into vm_flags, whether vm_page_prot was made non-cached,
and whether vm_ops / vm_private_data were pointed at mfc_vm_ops / the session. -/
structure vm_area_struct where
  vm_start : Nat
  vm_end : Nat
  reserved_io : Bool
  noncached : Bool
  mfc_vm_ops : Bool
deriving DecidableEq, Repr

/-- What mfc_mmap calls: remap_pfn_range with its user address, page frame, length and
answer; and the warning that the reserved memory is not mapped fully. -/
inductive MapEvent where
  | remap_pfn_range (addr : Nat) (pfn : Nat) (size : Nat) (ret : Int)
  | mfc_warn
deriving DecidableEq, Repr

/-- What the collaborators answer during one mfc_mmap: the memory manager's
mfc_mem_data_size(port) and mfc_mem_data_base(port), the kernel's vmalloc_to_pfn(address)
and remap_pfn_range(user address, page frame, length). -/
structure mmap_env where
  mem_data_size : Nat → Nat
  mem_data_base : Nat → Nat
  vmalloc_to_pfn : Nat → Nat
  remap_pfn_range : Nat → Nat → Nat → Int

/-- What mfc_mmap leaves behind: its return value, the session (with `userbase` when it was
recorded), the vma, the values of the locals remap_offset and remap_size at the return (0
where they were never assigned), whether the warning was issued, and the calls made. -/
structure mmap_result where
  ret : Int
  mfc_ctx : mfc_inst_ctx
  vma : vm_area_struct
  remap_offset : Nat
  remap_size : Nat
  warned : Bool
  trace : List MapEvent
deriving DecidableEq, Repr

/-- The local `real_size = (unsigned long)(mfc_mem_data_size(0) + mfc_mem_data_size(1))`,
computed whatever the number of ports. -/
def real_size (env : mmap_env) : Nat := ulong_add (env.mem_data_size 0) (env.mem_data_size 1)

/-- The end of mfc_mmap in the builds without CONFIG_S5P_VMEM, from
`mfc_ctx->userbase = vma->vm_start;` on: record the base, warn when
`remap_offset + remap_size < real_size`, return 0. -/
def mfc_mmap_done (mfc_ctx : mfc_inst_ctx) (vma : vm_area_struct) (real_size : Nat)
    (remap_offset remap_size : Nat) (trace : List MapEvent) : mmap_result :=
  { ret := 0, mfc_ctx := { mfc_ctx with userbase := vma.vm_start }, vma := vma,
    remap_offset := remap_offset, remap_size := remap_size,
    warned := decide (ulong_add remap_offset remap_size < real_size),
    trace := trace ++
      (if ulong_add remap_offset remap_size < real_size then [MapEvent.mfc_warn] else []) }

/-- Whether the most recent mfc_power_off call failed, followed along a trace from the
value `failed` (false when no mfc_power_off has been called yet). -/
def last_power_off_failed (failed : Bool) : List Event → Bool
  | [] => failed
  | Event.mfc_power_off r :: es => last_power_off_failed (decide (r < 0)) es
  | _ :: es => last_power_off_failed failed es

/-! ## Lemmas on traces -/

theorem power_off_calls_append (a b : List Event) :
    power_off_calls (a ++ b) = power_off_calls a + power_off_calls b := by
  induction a with
  | nil => simp [power_off_calls]
  | cons e es ih => cases e <;> simp [power_off_calls, ih]; omega

theorem power_after_append (pwr : Bool) (a b : List Event) :
    power_after pwr (a ++ b) = power_after (power_after pwr a) b := by
  induction a generalizing pwr with
  | nil => simp [power_after]
  | cons e es ih => cases e <;> simp [power_after, ih]

theorem power_off_never_failed_append (a b : List Event) :
    power_off_never_failed (a ++ b)
      = (power_off_never_failed a && power_off_never_failed b) := by
  induction a with
  | nil => simp [power_off_never_failed]
  | cons e es ih => cases e <;> simp [power_off_never_failed, ih, Bool.and_assoc]

theorem power_off_calls_sysmmu_flush (cfg : Config) :
    power_off_calls (sysmmu_flush cfg) = 0 := by
  unfold sysmmu_flush; split <;> simp [power_off_calls]

theorem power_after_sysmmu_flush (cfg : Config) (pwr : Bool) :
    power_after pwr (sysmmu_flush cfg) = pwr := by
  unfold sysmmu_flush; split <;> simp [power_after]

theorem power_off_never_failed_sysmmu_flush (cfg : Config) :
    power_off_never_failed (sysmmu_flush cfg) = true := by
  unfold sysmmu_flush; split <;> simp [power_off_never_failed]

/-! ## Opening a session -/

/-- C2: when the firmware-ready flag `fw.state` is not set, mfc_open fails with -ENODEV,
assigns no session, leaves the device (and so the session count) as it was, and calls
neither mfc_power_on, mfc_power_off nor mfc_start, so the power state is unchanged. -/
theorem mfc_open_firmware_not_ready (cfg : Config) (env : open_env) (dev : mfc_dev)
    (h : dev.fw_state = 0) :
    (mfc_open cfg env dev).ret = - ENODEV
    ∧ (mfc_open cfg env dev).private_data = none
    ∧ (mfc_open cfg env dev).dev = dev
    ∧ (mfc_open cfg env dev).dev.inst_cnt = dev.inst_cnt
    ∧ power_on_calls (mfc_open cfg env dev).trace = 0
    ∧ power_off_calls (mfc_open cfg env dev).trace = 0
    ∧ start_calls (mfc_open cfg env dev).trace = 0
    ∧ ∀ pwr, power_after pwr (mfc_open cfg env dev).trace = pwr := by
  simp [mfc_open, h, power_on_calls, power_off_calls, start_calls, power_after]

/-- Witness of C2: a device without firmware, three sessions counted, every collaborator
ready to succeed. -/
theorem mfc_open_firmware_not_ready_witness :
    (mfc_open sample_cfg ⟨0, 1, true, 0⟩ ⟨0, 3, 2⟩).ret = - ENODEV
    ∧ (mfc_open sample_cfg ⟨0, 1, true, 0⟩ ⟨0, 3, 2⟩).private_data = none
    ∧ (mfc_open sample_cfg ⟨0, 1, true, 0⟩ ⟨0, 3, 2⟩).dev = ⟨0, 3, 2⟩
    ∧ (mfc_open sample_cfg ⟨0, 1, true, 0⟩ ⟨0, 3, 2⟩).dev.inst_cnt = 3
    ∧ power_on_calls (mfc_open sample_cfg ⟨0, 1, true, 0⟩ ⟨0, 3, 2⟩).trace = 0
    ∧ power_off_calls (mfc_open sample_cfg ⟨0, 1, true, 0⟩ ⟨0, 3, 2⟩).trace = 0
    ∧ start_calls (mfc_open sample_cfg ⟨0, 1, true, 0⟩ ⟨0, 3, 2⟩).trace = 0
    ∧ ∀ pwr, power_after pwr (mfc_open sample_cfg ⟨0, 1, true, 0⟩ ⟨0, 3, 2⟩).trace = pwr :=
  mfc_open_firmware_not_ready sample_cfg ⟨0, 1, true, 0⟩ ⟨0, 3, 2⟩ rfl

/-- C3 (what the code does): on a firmware-ready device with session count 0, when
mfc_power_on succeeds and mfc_start fails, mfc_open calls mfc_power_off once, assigns no
session and leaves the count at 0, but it returns what mfc_power_off answered, not
-ENODEV: the assignment `ret = mfc_power_off()` overwrites the error code. -/
theorem mfc_open_start_failure_returns_power_off_result (cfg : Config) (env : open_env)
    (dev : mfc_dev) (hfw : dev.fw_state ≠ 0) (hcnt : dev.inst_cnt = 0)
    (hon : 0 ≤ env.power_on_ret) (hstart : env.start_ret ≠ cfg.MFC_OK) :
    (mfc_open cfg env dev).ret = env.power_off_ret
    ∧ power_off_calls (mfc_open cfg env dev).trace = 1
    ∧ (mfc_open cfg env dev).private_data = none
    ∧ (mfc_open cfg env dev).dev.inst_cnt = 0 := by
  have hon1 : ¬ env.power_on_ret < 0 := by omega
  simp [mfc_open, mfc_open_err_start_hw, hfw, hcnt, hon1, hstart, power_off_calls]

/-- Failing input of C3: firmware ready, no session, mfc_power_on answers 0, mfc_start
answers -1, mfc_power_off answers 0.  mfc_open returns 0, which is success and not
-ENODEV, although no session was created. -/
theorem mfc_open_start_failure_returns_success :
    (mfc_open sample_cfg ⟨0, -1, true, 0⟩ (sample_dev 0)).ret = 0
    ∧ (mfc_open sample_cfg ⟨0, -1, true, 0⟩ (sample_dev 0)).ret ≠ - ENODEV
    ∧ power_off_calls (mfc_open sample_cfg ⟨0, -1, true, 0⟩ (sample_dev 0)).trace = 1
    ∧ (mfc_open sample_cfg ⟨0, -1, true, 0⟩ (sample_dev 0)).private_data = none
    ∧ (mfc_open sample_cfg ⟨0, -1, true, 0⟩ (sample_dev 0)).dev.inst_cnt = 0 := by
  have h := mfc_open_start_failure_returns_power_off_result sample_cfg ⟨0, -1, true, 0⟩
    (sample_dev 0) (by decide) rfl (by decide) (by decide)
  refine ⟨h.1, ?_, h.2.1, h.2.2.1, h.2.2.2⟩
  rw [h.1]; decide

/-- C4 (what the code does): on a firmware-ready device where mfc_open reaches
mfc_create_inst (at once with a positive count; after a successful power-on and bring-up
with count 0) and mfc_create_inst fails, the session count is unchanged and no session is
assigned.  With a positive count mfc_open returns -ENOMEM.  With count 0 it calls
mfc_power_off and returns what mfc_power_off answered, not -ENOMEM. -/
theorem mfc_open_create_failure (cfg : Config) (env : open_env) (dev : mfc_dev)
    (hfw : dev.fw_state ≠ 0)
    (hreach : dev.inst_cnt = 0 → 0 ≤ env.power_on_ret ∧ env.start_ret = cfg.MFC_OK)
    (hcreate : env.alloc_ok = false) :
    (mfc_open cfg env dev).dev.inst_cnt = dev.inst_cnt
    ∧ (mfc_open cfg env dev).private_data = none
    ∧ (dev.inst_cnt ≠ 0 → (mfc_open cfg env dev).ret = - ENOMEM)
    ∧ (dev.inst_cnt = 0 → (mfc_open cfg env dev).ret = env.power_off_ret
        ∧ power_off_calls (mfc_open cfg env dev).trace = 1) := by
  by_cases hcnt : dev.inst_cnt = 0
  · have hon1 : ¬ env.power_on_ret < 0 := by have := (hreach hcnt).1; omega
    have hstart := (hreach hcnt).2
    simp [mfc_open, mfc_open_create, mfc_create_inst, mfc_open_err_start_hw, hfw, hcnt,
      hon1, hstart, hcreate, power_off_calls_append, power_off_calls,
      power_off_calls_sysmmu_flush]
  · simp [mfc_open, mfc_open_create, mfc_create_inst, mfc_open_err_start_hw, hfw, hcnt,
      hcreate]

/-- Failing input of C4: firmware ready, no session, mfc_power_on and mfc_start succeed,
mfc_create_inst fails, mfc_power_off answers 0.  mfc_open returns 0, not -ENOMEM. -/
theorem mfc_open_create_failure_returns_success :
    (mfc_open sample_cfg ⟨0, 1, false, 0⟩ (sample_dev 0)).ret = 0
    ∧ (mfc_open sample_cfg ⟨0, 1, false, 0⟩ (sample_dev 0)).ret ≠ - ENOMEM
    ∧ (mfc_open sample_cfg ⟨0, 1, false, 0⟩ (sample_dev 0)).private_data = none
    ∧ (mfc_open sample_cfg ⟨0, 1, false, 0⟩ (sample_dev 0)).dev.inst_cnt = 0 := by
  have h := mfc_open_create_failure sample_cfg ⟨0, 1, false, 0⟩ (sample_dev 0)
    (by decide) (fun _ => ⟨by decide, rfl⟩) rfl
  have hret := (h.2.2.2 rfl).1
  refine ⟨hret, ?_, h.2.1, h.1⟩
  rw [hret]; decide

/-! ## Closing a session -/

/-- C5: closing a session decrements the session count by exactly one; mfc_power_off is
called exactly once when the count before the call is 1, and not at all when it is greater
than 1. -/
theorem mfc_release_power_off_on_last (cfg : Config) (power_off_ret : Int) (dev : mfc_dev)
    (mfc_ctx : mfc_inst_ctx) :
    (mfc_release cfg power_off_ret dev mfc_ctx).dev.inst_cnt = dev.inst_cnt - 1
    ∧ (dev.inst_cnt = 1 →
        power_off_calls (mfc_release cfg power_off_ret dev mfc_ctx).trace = 1)
    ∧ (1 < dev.inst_cnt →
        power_off_calls (mfc_release cfg power_off_ret dev mfc_ctx).trace = 0) := by
  refine ⟨?_, ?_, ?_⟩
  · unfold mfc_release; simp only []; split_ifs <;> rfl
  · intro h1
    unfold mfc_release
    simp [h1, power_off_calls_append, power_off_calls, power_off_calls_sysmmu_flush]
    split_ifs <;>
      simp [power_off_calls_append, power_off_calls, power_off_calls_sysmmu_flush]
  · intro h1
    have h0 : ¬ dev.inst_cnt - 1 = 0 := by omega
    unfold mfc_release
    simp [h0, power_off_calls_append, power_off_calls, power_off_calls_sysmmu_flush]

/-- Witness of C5: closing the only session (count 1) with a failing mfc_power_off calls
mfc_power_off once; closing one of three sessions calls it not at all. -/
theorem mfc_release_power_off_on_last_witness :
    (mfc_release sample_cfg (-1) (sample_dev 1) ⟨0, inst_state.INST_STATE_CREATED, 0⟩).dev.inst_cnt
      = 1 - 1
    ∧ power_off_calls
        (mfc_release sample_cfg (-1) (sample_dev 1) ⟨0, inst_state.INST_STATE_CREATED, 0⟩).trace
      = 1
    ∧ power_off_calls
        (mfc_release sample_cfg 0 (sample_dev 3) ⟨0, inst_state.INST_STATE_DEC_EXE, 0⟩).trace
      = 0 :=
  have h := mfc_release_power_off_on_last sample_cfg (-1) (sample_dev 1)
    ⟨0, inst_state.INST_STATE_CREATED, 0⟩
  have h3 := mfc_release_power_off_on_last sample_cfg 0 (sample_dev 3)
    ⟨0, inst_state.INST_STATE_DEC_EXE, 0⟩
  ⟨h.1, h.2.1 rfl, h3.2.2 (by decide)⟩

/-! ## Suspend and resume -/

/-- C6: mfc_suspend and mfc_resume return 0 without calling mfc_sleep / mfc_wakeup when
the session count is zero; when the count is greater than zero they call mfc_sleep
(respectively mfc_wakeup) exactly once and return exactly its result.  Neither changes the
device record, hence not the session count. -/
theorem mfc_suspend_resume (sleep_ret wakeup_ret : Int) (dev : mfc_dev) :
    (dev.inst_cnt = 0 →
        (mfc_suspend sleep_ret dev).ret = 0
        ∧ sleep_calls (mfc_suspend sleep_ret dev).trace = 0
        ∧ (mfc_resume wakeup_ret dev).ret = 0
        ∧ wakeup_calls (mfc_resume wakeup_ret dev).trace = 0)
    ∧ (0 < dev.inst_cnt →
        (mfc_suspend sleep_ret dev).ret = sleep_ret
        ∧ (mfc_suspend sleep_ret dev).trace
            = [Event.mutex_lock, Event.mfc_sleep sleep_ret, Event.mutex_unlock]
        ∧ sleep_calls (mfc_suspend sleep_ret dev).trace = 1
        ∧ (mfc_resume wakeup_ret dev).ret = wakeup_ret
        ∧ (mfc_resume wakeup_ret dev).trace
            = [Event.mutex_lock, Event.mfc_wakeup wakeup_ret, Event.mutex_unlock]
        ∧ wakeup_calls (mfc_resume wakeup_ret dev).trace = 1)
    ∧ (mfc_suspend sleep_ret dev).dev = dev
    ∧ (mfc_resume wakeup_ret dev).dev = dev
    ∧ (mfc_suspend sleep_ret dev).dev.inst_cnt = dev.inst_cnt
    ∧ (mfc_resume wakeup_ret dev).dev.inst_cnt = dev.inst_cnt := by
  refine ⟨?_, ?_, ?_, ?_, ?_, ?_⟩
  · intro h; simp [mfc_suspend, mfc_resume, h, sleep_calls, wakeup_calls]
  · intro h
    have h0 : ¬ dev.inst_cnt = 0 := by omega
    simp [mfc_suspend, mfc_resume, h0, sleep_calls, wakeup_calls]
  · unfold mfc_suspend; split_ifs <;> rfl
  · unfold mfc_resume; split_ifs <;> rfl
  · unfold mfc_suspend; split_ifs <;> rfl
  · unfold mfc_resume; split_ifs <;> rfl

/-- Witness of C6: with two live sessions a failing mfc_sleep (-5) and a succeeding
mfc_wakeup (0) are each called once and their results returned. -/
theorem mfc_suspend_resume_witness :
    (mfc_suspend (-5) (sample_dev 2)).ret = -5
    ∧ sleep_calls (mfc_suspend (-5) (sample_dev 2)).trace = 1
    ∧ (mfc_resume 0 (sample_dev 2)).ret = 0
    ∧ wakeup_calls (mfc_resume 0 (sample_dev 2)).trace = 1
    ∧ (mfc_suspend (-5) (sample_dev 0)).ret = 0
    ∧ sleep_calls (mfc_suspend (-5) (sample_dev 0)).trace = 0 :=
  have h := mfc_suspend_resume (-5) 0 (sample_dev 2)
  have h0 := mfc_suspend_resume (-5) 0 (sample_dev 0)
  have hpos := h.2.1 (by decide)
  have hzero := h0.1 rfl
  ⟨hpos.1, hpos.2.2.1, hpos.2.2.2.1, hpos.2.2.2.2.2, hzero.1, hzero.2.1⟩

/-! ## Sequences of opens and closes -/

/-- What one mfc_open does to the count: it grows by one exactly when a session is
assigned to the file. -/
theorem mfc_open_count (cfg : Config) (env : open_env) (dev : mfc_dev) :
    ((mfc_open cfg env dev).private_data = none →
        (mfc_open cfg env dev).dev.inst_cnt = dev.inst_cnt)
    ∧ ((mfc_open cfg env dev).private_data ≠ none →
        (mfc_open cfg env dev).dev.inst_cnt = dev.inst_cnt + 1
        ∧ (mfc_open cfg env dev).ret = 0) := by
  unfold mfc_open mfc_open_create mfc_open_err_start_hw mfc_create_inst
  cases env.alloc_ok <;> simp <;> split_ifs <;> simp

/-- What one mfc_open does to the power: when no mfc_power_off of the call failed, the
power follows the count. -/
theorem mfc_open_power (cfg : Config) (env : open_env) (dev : mfc_dev) (pwr : Bool)
    (hcnt : 0 ≤ dev.inst_cnt) (hpwr : pwr = true ↔ 0 < dev.inst_cnt)
    (hoff : power_off_never_failed (mfc_open cfg env dev).trace = true) :
    (power_after pwr (mfc_open cfg env dev).trace = true
      ↔ 0 < (mfc_open cfg env dev).dev.inst_cnt) := by
  revert hoff
  by_cases hfw : dev.fw_state = 0
  · simp [mfc_open, hfw, power_after, hpwr]
  · by_cases h0 : dev.inst_cnt = 0
    · have hp : pwr = false := by
        cases pwr with
        | false => rfl
        | true => exact absurd (hpwr.mp rfl) (by omega)
      by_cases hon : env.power_on_ret < 0
      · simp [mfc_open, hfw, h0, hon, power_after, hp]
      · by_cases hst : env.start_ret = cfg.MFC_OK
        · cases hal : env.alloc_ok <;>
            simp [mfc_open, mfc_open_create, mfc_create_inst, mfc_open_err_start_hw, hfw,
              h0, hon, hst, hal, power_after, power_after_append, power_after_sysmmu_flush,
              power_off_never_failed, power_off_never_failed_append,
              power_off_never_failed_sysmmu_flush, hp]
        · simp [mfc_open, mfc_open_err_start_hw, hfw, h0, hon, hst, power_after,
            power_off_never_failed, hp]
    · have hpos : 0 < dev.inst_cnt := by omega
      have hp : pwr = true := hpwr.mpr hpos
      cases hal : env.alloc_ok <;>
        simp [mfc_open, mfc_open_create, mfc_create_inst, mfc_open_err_start_hw, hfw, h0,
          hal, power_after, power_after_append, hp, hpos]
      omega

/-- What one mfc_release of an open session does to the power: when its mfc_power_off, if
any, did not fail, the power follows the count. -/
theorem mfc_release_power (cfg : Config) (power_off_ret : Int) (dev : mfc_dev)
    (mfc_ctx : mfc_inst_ctx) (pwr : Bool) (hcnt : 1 ≤ dev.inst_cnt)
    (hpwr : pwr = true ↔ 0 < dev.inst_cnt)
    (hoff : power_off_never_failed (mfc_release cfg power_off_ret dev mfc_ctx).trace = true) :
    (power_after pwr (mfc_release cfg power_off_ret dev mfc_ctx).trace = true
      ↔ 0 < (mfc_release cfg power_off_ret dev mfc_ctx).dev.inst_cnt) := by
  revert hoff
  have hp : pwr = true := hpwr.mpr (by omega)
  by_cases h1 : dev.inst_cnt - 1 = 0
  · by_cases hneg : power_off_ret < 0 <;>
      simp [mfc_release, h1, hneg, power_after, power_after_append,
        power_after_sysmmu_flush, power_off_never_failed, power_off_never_failed_append,
        power_off_never_failed_sysmmu_flush, hp]
  · simp [mfc_release, h1, power_after, power_after_append, power_after_sysmmu_flush, hp]
    omega

/-- One mfc_release decrements the count by one. -/
theorem mfc_release_count (cfg : Config) (power_off_ret : Int) (dev : mfc_dev)
    (mfc_ctx : mfc_inst_ctx) :
    (mfc_release cfg power_off_ret dev mfc_ctx).dev.inst_cnt = dev.inst_cnt - 1 := by
  unfold mfc_release; simp only []; split_ifs <;> rfl

/-- One lifecycle call keeps the count equal to the number of open files and to the
opens that produced a session minus the closes; and as long as no mfc_power_off has
failed, the power is on exactly when the count is positive. -/
theorem System.step_consistent (cfg : Config) (s s1 : System) (c : Call)
    (hstep : System.step cfg s c = some s1)
    (hcount : s.dev.inst_cnt = (s.opened : Int) - (s.closed : Int))
    (hfiles : s.dev.inst_cnt = (s.files.length : Int))
    (hpower : power_off_never_failed s.trace = true →
      (power_after false s.trace = true ↔ 0 < s.dev.inst_cnt)) :
    s1.dev.inst_cnt = (s1.opened : Int) - (s1.closed : Int)
    ∧ s1.dev.inst_cnt = (s1.files.length : Int)
    ∧ (power_off_never_failed s1.trace = true →
        (power_after false s1.trace = true ↔ 0 < s1.dev.inst_cnt)) := by
  have hnn : 0 ≤ s.dev.inst_cnt := by omega
  cases c with
  | do_open env =>
    have hC := mfc_open_count cfg env s.dev
    have hP : power_off_never_failed (s.trace ++ (mfc_open cfg env s.dev).trace) = true →
        (power_after false (s.trace ++ (mfc_open cfg env s.dev).trace) = true
          ↔ 0 < (mfc_open cfg env s.dev).dev.inst_cnt) := by
      intro hok
      rw [power_off_never_failed_append, Bool.and_eq_true] at hok
      rw [power_after_append]
      exact mfc_open_power cfg env s.dev (power_after false s.trace) hnn (hpower hok.1) hok.2
    simp only [System.step] at hstep
    cases hpd : (mfc_open cfg env s.dev).private_data with
    | none =>
      rw [hpd] at hstep
      simp only [Option.some.injEq] at hstep
      subst hstep
      have h1 := hC.1 hpd
      exact ⟨by simp only []; omega, by simp only []; omega, hP⟩
    | some mfc_ctx =>
      rw [hpd] at hstep
      simp only [Option.some.injEq] at hstep
      subst hstep
      have h1 := (hC.2 (by simp [hpd])).1
      refine ⟨?_, ?_, hP⟩
      · simp only [Nat.cast_add, Nat.cast_one]; omega
      · simp only [List.length_append, List.length_singleton, Nat.cast_add, Nat.cast_one]
        omega
  | do_close file power_off_ret =>
    simp only [System.step] at hstep
    cases hget : s.files.get? file with
    | none => rw [hget] at hstep; exact absurd hstep (by simp)
    | some mfc_ctx =>
      rw [hget] at hstep
      simp only [Option.some.injEq] at hstep
      subst hstep
      have hlt : file < s.files.length := by
        rcases List.get?_eq_some.mp hget with ⟨h, _⟩
        exact h
      have hone : 1 ≤ s.dev.inst_cnt := by omega
      have h1 := mfc_release_count cfg power_off_ret s.dev mfc_ctx
      refine ⟨?_, ?_, ?_⟩
      · simp only [Nat.cast_add, Nat.cast_one]; omega
      · simp only [List.length_eraseIdx, hlt, if_true]
        omega
      · intro hok
        simp only [] at hok ⊢
        rw [power_off_never_failed_append, Bool.and_eq_true] at hok
        rw [power_after_append]
        exact mfc_release_power cfg power_off_ret s.dev mfc_ctx (power_after false s.trace)
          hone (hpower hok.1) hok.2

/-- The invariant of `System.step_consistent` along a whole sequence of calls. -/
theorem System.run_consistent (cfg : Config) (cs : List Call) (s s1 : System)
    (hrun : System.run cfg s cs = some s1)
    (hcount : s.dev.inst_cnt = (s.opened : Int) - (s.closed : Int))
    (hfiles : s.dev.inst_cnt = (s.files.length : Int))
    (hpower : power_off_never_failed s.trace = true →
      (power_after false s.trace = true ↔ 0 < s.dev.inst_cnt)) :
    s1.dev.inst_cnt = (s1.opened : Int) - (s1.closed : Int)
    ∧ s1.dev.inst_cnt = (s1.files.length : Int)
    ∧ (power_off_never_failed s1.trace = true →
        (power_after false s1.trace = true ↔ 0 < s1.dev.inst_cnt)) := by
  induction cs generalizing s with
  | nil =>
    simp only [System.run, Option.some.injEq] at hrun
    subst hrun
    exact ⟨hcount, hfiles, hpower⟩
  | cons c cs ih =>
    simp only [System.run] at hrun
    cases hstep : System.step cfg s c with
    | none => rw [hstep] at hrun; exact absurd hrun (by simp)
    | some s2 =>
      rw [hstep] at hrun
      have h2 := System.step_consistent cfg s s2 c hstep hcount hfiles hpower
      exact ih s2 hrun h2.1 h2.2.1 h2.2.2

theorem last_power_off_failed_append (failed : Bool) (a b : List Event) :
    last_power_off_failed failed (a ++ b)
      = last_power_off_failed (last_power_off_failed failed a) b := by
  induction a generalizing failed with
  | nil => simp [last_power_off_failed]
  | cons e es ih => cases e <;> simp [last_power_off_failed, ih]

theorem last_power_off_failed_sysmmu_flush (cfg : Config) (failed : Bool) :
    last_power_off_failed failed (sysmmu_flush cfg) = failed := by
  unfold sysmmu_flush; split <;> simp [last_power_off_failed]

/-- What one mfc_open does to the power, exactly: if before the call the power is on
precisely when the count is positive or the most recent mfc_power_off failed, so it is
after the call. -/
theorem mfc_open_power_exact (cfg : Config) (env : open_env) (dev : mfc_dev)
    (pwr failed : Bool) (hcnt : 0 ≤ dev.inst_cnt)
    (hpwr : pwr = true ↔ (0 < dev.inst_cnt ∨ failed = true)) :
    (power_after pwr (mfc_open cfg env dev).trace = true
      ↔ (0 < (mfc_open cfg env dev).dev.inst_cnt
          ∨ last_power_off_failed failed (mfc_open cfg env dev).trace = true)) := by
  by_cases hfw : dev.fw_state = 0
  · simp [mfc_open, hfw, power_after, last_power_off_failed, hpwr]
  · by_cases h0 : dev.inst_cnt = 0
    · have hp : pwr = failed := by
        rw [h0] at hpwr
        cases pwr <;> cases failed <;> simp at hpwr ⊢
      by_cases hon : env.power_on_ret < 0
      · simp [mfc_open, hfw, h0, hon, power_after, last_power_off_failed, hp]
      · by_cases hst : env.start_ret = cfg.MFC_OK
        · cases hal : env.alloc_ok <;>
            simp [mfc_open, mfc_open_create, mfc_create_inst, mfc_open_err_start_hw, hfw,
              h0, hon, hst, hal, power_after, power_after_append, power_after_sysmmu_flush,
              last_power_off_failed, last_power_off_failed_append,
              last_power_off_failed_sysmmu_flush, hp]
        · simp [mfc_open, mfc_open_err_start_hw, hfw, h0, hon, hst, power_after,
            last_power_off_failed, hp]
    · have hpos : 0 < dev.inst_cnt := by omega
      have hp : pwr = true := hpwr.mpr (Or.inl hpos)
      cases hal : env.alloc_ok <;>
        simp [mfc_open, mfc_open_create, mfc_create_inst, mfc_open_err_start_hw, hfw, h0,
          hal, power_after, power_after_append, last_power_off_failed,
          last_power_off_failed_append, hp, hpos]
      left; omega

/-- What one mfc_release of an open session does to the power, exactly. -/
theorem mfc_release_power_exact (cfg : Config) (power_off_ret : Int) (dev : mfc_dev)
    (mfc_ctx : mfc_inst_ctx) (pwr failed : Bool) (hcnt : 1 ≤ dev.inst_cnt)
    (hpwr : pwr = true ↔ (0 < dev.inst_cnt ∨ failed = true)) :
    (power_after pwr (mfc_release cfg power_off_ret dev mfc_ctx).trace = true
      ↔ (0 < (mfc_release cfg power_off_ret dev mfc_ctx).dev.inst_cnt
          ∨ last_power_off_failed failed
              (mfc_release cfg power_off_ret dev mfc_ctx).trace = true)) := by
  have hp : pwr = true := hpwr.mpr (Or.inl (by omega))
  by_cases h1 : dev.inst_cnt - 1 = 0
  · by_cases hneg : power_off_ret < 0 <;>
      simp [mfc_release, h1, hneg, power_after, power_after_append,
        power_after_sysmmu_flush, last_power_off_failed, last_power_off_failed_append,
        last_power_off_failed_sysmmu_flush, hp]
  · simp [mfc_release, h1, power_after, power_after_append, power_after_sysmmu_flush,
      last_power_off_failed, last_power_off_failed_append,
      last_power_off_failed_sysmmu_flush, hp]
    left; omega

/-- Along a whole sequence of lifecycle calls: the power is on exactly when the count is
positive or the most recent mfc_power_off failed. -/
theorem System.run_power_exact (cfg : Config) (cs : List Call) (s s1 : System)
    (hrun : System.run cfg s cs = some s1)
    (hfiles : s.dev.inst_cnt = (s.files.length : Int))
    (hpower : power_after false s.trace = true
      ↔ (0 < s.dev.inst_cnt ∨ last_power_off_failed false s.trace = true)) :
    s1.dev.inst_cnt = (s1.files.length : Int)
    ∧ (power_after false s1.trace = true
        ↔ (0 < s1.dev.inst_cnt ∨ last_power_off_failed false s1.trace = true)) := by
  induction cs generalizing s with
  | nil =>
    simp only [System.run, Option.some.injEq] at hrun
    subst hrun
    exact ⟨hfiles, hpower⟩
  | cons c cs ih =>
    simp only [System.run] at hrun
    cases hstep : System.step cfg s c with
    | none => rw [hstep] at hrun; exact absurd hrun (by simp)
    | some s2 =>
      rw [hstep] at hrun
      have hnn : 0 ≤ s.dev.inst_cnt := by omega
      have h2 : s2.dev.inst_cnt = (s2.files.length : Int)
          ∧ (power_after false s2.trace = true
              ↔ (0 < s2.dev.inst_cnt ∨ last_power_off_failed false s2.trace = true)) := by
        cases c with
        | do_open env =>
          have hC := mfc_open_count cfg env s.dev
          have hP := mfc_open_power_exact cfg env s.dev (power_after false s.trace)
            (last_power_off_failed false s.trace) hnn hpower
          simp only [System.step] at hstep
          cases hpd : (mfc_open cfg env s.dev).private_data with
          | none =>
            rw [hpd] at hstep
            simp only [Option.some.injEq] at hstep
            subst hstep
            have h1 := hC.1 hpd
            refine ⟨by simp only []; omega, ?_⟩
            simp only [power_after_append, last_power_off_failed_append]
            exact hP
          | some mfc_ctx =>
            rw [hpd] at hstep
            simp only [Option.some.injEq] at hstep
            subst hstep
            have h1 := (hC.2 (by simp [hpd])).1
            refine ⟨?_, ?_⟩
            · simp only [List.length_append, List.length_singleton, Nat.cast_add,
                Nat.cast_one]
              omega
            · simp only [power_after_append, last_power_off_failed_append]
              exact hP
        | do_close file power_off_ret =>
          simp only [System.step] at hstep
          cases hget : s.files.get? file with
          | none => rw [hget] at hstep; exact absurd hstep (by simp)
          | some mfc_ctx =>
            rw [hget] at hstep
            simp only [Option.some.injEq] at hstep
            subst hstep
            have hlt : file < s.files.length := by
              rcases List.get?_eq_some.mp hget with ⟨h, _⟩
              exact h
            have hone : 1 ≤ s.dev.inst_cnt := by omega
            have h1 := mfc_release_count cfg power_off_ret s.dev mfc_ctx
            refine ⟨?_, ?_⟩
            · simp only [List.length_eraseIdx, hlt, if_true]
              omega
            · simp only [power_after_append, last_power_off_failed_append]
              exact mfc_release_power_exact cfg power_off_ret s.dev mfc_ctx
                (power_after false s.trace) (last_power_off_failed false s.trace) hone
                hpower
      exact ih s2 hrun h2.1 h2.2

/-- C1 (as the code has it): for every sequence of opens and closes on one device that
starts with session count 0 and power off, each close applied to a file that is open, the
session count after the sequence (hence after every call: every prefix of a sequence is a
sequence) equals the number of opens that produced a session minus the number of closes,
which is the number of open files.  The power is on (the last power call that succeeded
was mfc_power_on) whenever the count is greater than zero; and it is on with count zero
exactly when the most recent mfc_power_off call failed.  So as long as no mfc_power_off
call has failed, the power is on exactly when the count is greater than zero. -/
theorem lifecycle_count_and_power (cfg : Config) (fw_state mem_ports : Int)
    (cs : List Call) (s : System)
    (hrun : System.run cfg (System.init fw_state mem_ports) cs = some s) :
    s.dev.inst_cnt = (s.opened : Int) - (s.closed : Int)
    ∧ s.dev.inst_cnt = (s.files.length : Int)
    ∧ (0 < s.dev.inst_cnt → power_after false s.trace = true)
    ∧ (power_after false s.trace = true
        ↔ (0 < s.dev.inst_cnt ∨ last_power_off_failed false s.trace = true))
    ∧ (power_off_never_failed s.trace = true →
        (power_after false s.trace = true ↔ 0 < s.dev.inst_cnt)) := by
  have hold := System.run_consistent cfg cs (System.init fw_state mem_ports) s hrun
    (by simp [System.init]) (by simp [System.init])
    (by simp [System.init, power_after])
  have hnew := System.run_power_exact cfg cs (System.init fw_state mem_ports) s hrun
    (by simp [System.init])
    (by simp [System.init, power_after, last_power_off_failed])
  exact ⟨hold.1, hold.2.1, fun h => hnew.2.mpr (Or.inl h), hnew.2, hold.2.2⟩

/-- Witness of C1.  Two opens that succeed and one close, with every power call succeeding:
one session is left and the power is on.  And one open, the close of that session with
mfc_power_off failing, then another open: one session is left and the power is on. -/
theorem lifecycle_count_and_power_witness :
    (∃ s, System.run sample_cfg (System.init 1 2)
        [Call.do_open ⟨0, 1, true, 0⟩, Call.do_open ⟨0, 1, true, 0⟩, Call.do_close 0 0]
        = some s
      ∧ s.opened = 2 ∧ s.closed = 1 ∧ s.dev.inst_cnt = 1
      ∧ power_off_never_failed s.trace = true
      ∧ power_after false s.trace = true)
    ∧ (∃ s, System.run sample_cfg (System.init 1 2)
        [Call.do_open ⟨0, 1, true, 0⟩, Call.do_close 0 (-1), Call.do_open ⟨0, 1, true, 0⟩]
        = some s
      ∧ s.opened = 2 ∧ s.closed = 1 ∧ s.dev.inst_cnt = 1
      ∧ power_off_never_failed s.trace = false
      ∧ power_after false s.trace = true) :=
  by
  constructor
  · refine ⟨_, rfl, rfl, rfl, rfl, rfl, ?_⟩
    exact ((lifecycle_count_and_power sample_cfg 1 2
      [Call.do_open ⟨0, 1, true, 0⟩, Call.do_open ⟨0, 1, true, 0⟩, Call.do_close 0 0]
      _ rfl).2.2.2.2 rfl).mpr (by decide)
  · refine ⟨_, rfl, rfl, rfl, rfl, rfl, ?_⟩
    exact (lifecycle_count_and_power sample_cfg 1 2
      [Call.do_open ⟨0, 1, true, 0⟩, Call.do_close 0 (-1), Call.do_open ⟨0, 1, true, 0⟩]
      _ (by rfl)).2.2.1 (by decide)

/-- Counterexample to C1 as stated: one open that succeeds, then the close of that session
with mfc_power_off failing (-1).  The count is back to 0 = 1 - 1, but the last power
transition is still the mfc_power_on of the open: the power is on with count zero. -/
theorem lifecycle_power_on_with_count_zero :
    ∃ s, System.run sample_cfg (System.init 1 2)
        [Call.do_open ⟨0, 1, true, 0⟩, Call.do_close 0 (-1)] = some s
      ∧ s.opened = 1 ∧ s.closed = 1 ∧ s.dev.inst_cnt = 0
      ∧ power_after false s.trace = true
      ∧ ¬ (power_after false s.trace = true ↔ 0 < s.dev.inst_cnt) :=
  ⟨_, rfl, rfl, rfl, rfl, rfl, by decide⟩

/-! ## Command dispatch -/

/-- C10: for every command code that matches none of the seven case labels and every
session, when neither user copy fails, mfc_ioctl returns MFC_OK (its success value), sets
the envelope's ret_code to MFC_OK, leaves the session as it was, and calls nothing but the
mutex and the two user copies: no hardware or allocator operation. -/
theorem mfc_ioctl_unrecognized_command (cfg : Config) (env : ioctl_env) (dev : mfc_dev)
    (mfc_ctx : mfc_inst_ctx) (code : Nat)
    (hin : 0 ≤ env.copy_from_user_ret) (hout : 0 ≤ env.copy_to_user_ret) :
    (mfc_ioctl cfg env dev mfc_ctx (ioctl_cmd.other code)).ret = cfg.MFC_OK
    ∧ (mfc_ioctl cfg env dev mfc_ctx (ioctl_cmd.other code)).in_param.ret_code = cfg.MFC_OK
    ∧ (mfc_ioctl cfg env dev mfc_ctx (ioctl_cmd.other code)).mfc_ctx = mfc_ctx
    ∧ (mfc_ioctl cfg env dev mfc_ctx (ioctl_cmd.other code)).mfc_ctx.state = mfc_ctx.state
    ∧ (mfc_ioctl cfg env dev mfc_ctx (ioctl_cmd.other code)).trace
        = [Event.mutex_lock, Event.copy_from_user env.copy_from_user_ret,
           Event.mutex_unlock, Event.copy_to_user env.copy_to_user_ret]
    ∧ ∀ e ∈ (mfc_ioctl cfg env dev mfc_ctx (ioctl_cmd.other code)).trace,
        e.is_hw_or_alloc = false := by
  have hin1 : ¬ env.copy_from_user_ret < 0 := by omega
  have hout1 : ¬ env.copy_to_user_ret < 0 := by omega
  simp [mfc_ioctl, mfc_ioctl_switch, mfc_ioctl_out, hin1, hout1, Event.is_hw_or_alloc]

/-- Witness of C10: command code 12345 on a session in state DecodeExecuting. -/
theorem mfc_ioctl_unrecognized_command_witness :
    (mfc_ioctl sample_cfg (sample_env 1 1) (sample_dev 1)
        ⟨0, inst_state.INST_STATE_DEC_EXE, 0⟩ (ioctl_cmd.other 12345)).ret = 1
    ∧ (mfc_ioctl sample_cfg (sample_env 1 1) (sample_dev 1)
        ⟨0, inst_state.INST_STATE_DEC_EXE, 0⟩ (ioctl_cmd.other 12345)).in_param.ret_code = 1
    ∧ (mfc_ioctl sample_cfg (sample_env 1 1) (sample_dev 1)
        ⟨0, inst_state.INST_STATE_DEC_EXE, 0⟩ (ioctl_cmd.other 12345)).mfc_ctx.state
        = inst_state.INST_STATE_DEC_EXE :=
  have h := mfc_ioctl_unrecognized_command sample_cfg (sample_env 1 1) (sample_dev 1)
    ⟨0, inst_state.INST_STATE_DEC_EXE, 0⟩ 12345 (by decide) (by decide)
  ⟨h.1, h.2.1, h.2.2.2.1⟩

/-- C7: for decode-init, allocate-buffer (IOCTL_MFC_GET_IN_BUF), query-physical-address and
query-total-mapped-size, on every session whose state is not Created, the command
dispatched by mfc_ioctl sets the envelope's ret_code to MFC_STATE_INVALID, performs no
hardware call and no allocator call, leaves the session as it was, and returns -EINVAL (as
for every command, a copy_to_user that reports failure replaces the return value by -EIO,
and only the return value). -/
theorem mfc_ioctl_invalid_state (cfg : Config) (env : ioctl_env) (dev : mfc_dev)
    (mfc_ctx : mfc_inst_ctx) (cmd : ioctl_cmd)
    (hcmd : cmd = ioctl_cmd.IOCTL_MFC_DEC_INIT ∨ cmd = ioctl_cmd.IOCTL_MFC_GET_IN_BUF
      ∨ cmd = ioctl_cmd.IOCTL_MFC_GET_PHYS_ADDR ∨ cmd = ioctl_cmd.IOCTL_MFC_GET_MMAP_SIZE)
    (hstate : mfc_ctx.state ≠ inst_state.INST_STATE_CREATED)
    (hin : 0 ≤ env.copy_from_user_ret) :
    (mfc_ioctl cfg env dev mfc_ctx cmd).in_param.ret_code = cfg.MFC_STATE_INVALID
    ∧ (0 ≤ env.copy_to_user_ret → (mfc_ioctl cfg env dev mfc_ctx cmd).ret = - EINVAL)
    ∧ (∀ e ∈ (mfc_ioctl cfg env dev mfc_ctx cmd).trace, e.is_hw_or_alloc = false)
    ∧ (mfc_ioctl cfg env dev mfc_ctx cmd).mfc_ctx = mfc_ctx
    ∧ (mfc_ioctl cfg env dev mfc_ctx cmd).mfc_ctx.state = mfc_ctx.state := by
  have hin1 : ¬ env.copy_from_user_ret < 0 := by omega
  have hout1 : 0 ≤ env.copy_to_user_ret → ¬ env.copy_to_user_ret < 0 := by omega
  rcases hcmd with h | h | h | h <;> subst h <;>
    simp [mfc_ioctl, mfc_ioctl_switch, mfc_ioctl_out, mfc_chk_inst_state, hstate, hin1,
      Event.is_hw_or_alloc] <;>
    exact fun h0 h1 => absurd h1 (hout1 h0)

/-- Witness of C7: decode-init on a session that is already in state DecodeInitialized. -/
theorem mfc_ioctl_invalid_state_witness :
    (mfc_ioctl sample_cfg (sample_env 1 1) (sample_dev 1)
        ⟨0, inst_state.INST_STATE_DEC_INIT, 0⟩ ioctl_cmd.IOCTL_MFC_DEC_INIT).in_param.ret_code
      = -4000
    ∧ (mfc_ioctl sample_cfg (sample_env 1 1) (sample_dev 1)
        ⟨0, inst_state.INST_STATE_DEC_INIT, 0⟩ ioctl_cmd.IOCTL_MFC_DEC_INIT).ret = - EINVAL
    ∧ (mfc_ioctl sample_cfg (sample_env 1 1) (sample_dev 1)
        ⟨0, inst_state.INST_STATE_DEC_INIT, 0⟩ ioctl_cmd.IOCTL_MFC_DEC_INIT).mfc_ctx.state
      = inst_state.INST_STATE_DEC_INIT :=
  have h := mfc_ioctl_invalid_state sample_cfg (sample_env 1 1) (sample_dev 1)
    ⟨0, inst_state.INST_STATE_DEC_INIT, 0⟩ ioctl_cmd.IOCTL_MFC_DEC_INIT (Or.inl rfl)
    (by decide) (by decide)
  ⟨h.1, h.2.1 (by decide), h.2.2.2.2⟩

/-- What one mfc_ioctl does to the session state: nothing, or Created to
DecodeInitialized by a decode-init, or any state to DecodeExecuting by a decode-exec. -/
theorem mfc_ioctl_state_step (cfg : Config) (env : ioctl_env) (dev : mfc_dev)
    (mfc_ctx : mfc_inst_ctx) (cmd : ioctl_cmd) :
    (mfc_ioctl cfg env dev mfc_ctx cmd).mfc_ctx.state = mfc_ctx.state
    ∨ (cmd = ioctl_cmd.IOCTL_MFC_DEC_INIT
        ∧ mfc_ctx.state = inst_state.INST_STATE_CREATED
        ∧ (mfc_ioctl cfg env dev mfc_ctx cmd).mfc_ctx.state = inst_state.INST_STATE_DEC_INIT)
    ∨ (cmd = ioctl_cmd.IOCTL_MFC_DEC_EXE
        ∧ (mfc_ioctl cfg env dev mfc_ctx cmd).mfc_ctx.state
            = inst_state.INST_STATE_DEC_EXE) := by
  by_cases hin : env.copy_from_user_ret < 0
  · left; simp [mfc_ioctl, mfc_ioctl_out, hin]
  · by_cases hst : mfc_ctx.state = inst_state.INST_STATE_CREATED <;>
      cases cmd <;>
      simp [mfc_ioctl, mfc_ioctl_switch, mfc_ioctl_out, mfc_chk_inst_state,
        mfc_set_inst_state, hin, hst]

/-- A session is in state DecodeInitialized after a sequence of commands only if it was
so before or the sequence contains a decode-init; likewise DecodeExecuting and
decode-exec. -/
theorem ioctl_run_state_origin (cfg : Config) (dev : mfc_dev)
    (cs : List (ioctl_cmd × ioctl_env)) (mfc_ctx : mfc_inst_ctx) :
    ((ioctl_run cfg dev mfc_ctx cs).state = inst_state.INST_STATE_DEC_INIT →
        mfc_ctx.state = inst_state.INST_STATE_DEC_INIT
        ∨ ∃ env, (ioctl_cmd.IOCTL_MFC_DEC_INIT, env) ∈ cs)
    ∧ ((ioctl_run cfg dev mfc_ctx cs).state = inst_state.INST_STATE_DEC_EXE →
        mfc_ctx.state = inst_state.INST_STATE_DEC_EXE
        ∨ ∃ env, (ioctl_cmd.IOCTL_MFC_DEC_EXE, env) ∈ cs) := by
  induction cs generalizing mfc_ctx with
  | nil => simp [ioctl_run]
  | cons c cs ih =>
    obtain ⟨cmd, env⟩ := c
    have hstep := mfc_ioctl_state_step cfg env dev mfc_ctx cmd
    have ih1 := ih (mfc_ioctl cfg env dev mfc_ctx cmd).mfc_ctx
    simp only [ioctl_run]
    constructor
    · intro hfin
      rcases ih1.1 hfin with h | ⟨e, he⟩
      · rcases hstep with h1 | ⟨h1, _, _⟩ | ⟨_, h1⟩
        · left; rw [← h1]; exact h
        · right; exact ⟨env, by rw [h1]; exact List.mem_cons_self _ _⟩
        · rw [h1] at h; exact absurd h (by decide)
      · right; exact ⟨e, List.mem_cons_of_mem _ he⟩
    · intro hfin
      rcases ih1.2 hfin with h | ⟨e, he⟩
      · rcases hstep with h1 | ⟨_, _, h1⟩ | ⟨h1, _⟩
        · left; rw [← h1]; exact h
        · rw [h1] at h; exact absurd h (by decide)
        · right; exact ⟨env, by rw [h1]; exact List.mem_cons_self _ _⟩
      · right; exact ⟨e, List.mem_cons_of_mem _ he⟩

/-- C8 (as the code has it): on a session in state Created (no decode-init or decode-exec
dispatched yet) allocate-buffer, query-physical-address and query-total-mapped-size pass
the state check: the allocator is called and its status is the answer, the address lookup
decides between MFC_OK and MFC_MEM_INVALID_ADDR_FAIL, the size query answers MFC_OK.  After
a decode-init has been accepted on the session (whatever mfc_init_decoding returned) the
session is in state DecodeInitialized and the same three commands are rejected with
MFC_STATE_INVALID. -/
theorem buffer_commands_state_check (cfg : Config) (env env0 : ioctl_env) (dev : mfc_dev)
    (mfc_ctx : mfc_inst_ctx)
    (hstate : mfc_ctx.state = inst_state.INST_STATE_CREATED)
    (hin : 0 ≤ env.copy_from_user_ret) (hin0 : 0 ≤ env0.copy_from_user_ret) :
    ((mfc_ioctl cfg env dev mfc_ctx ioctl_cmd.IOCTL_MFC_GET_IN_BUF).in_param.ret_code
        = env.alloc_buf_ret
      ∧ (∃ t size port, Event.mfc_alloc_buf t size port env.alloc_buf_ret
          ∈ (mfc_ioctl cfg env dev mfc_ctx ioctl_cmd.IOCTL_MFC_GET_IN_BUF).trace)
      ∧ (mfc_ioctl cfg env dev mfc_ctx ioctl_cmd.IOCTL_MFC_GET_PHYS_ADDR).in_param.ret_code
        = (if env.get_buf_real_ret ≠ 0 then cfg.MFC_OK else cfg.MFC_MEM_INVALID_ADDR_FAIL)
      ∧ (mfc_ioctl cfg env dev mfc_ctx ioctl_cmd.IOCTL_MFC_GET_MMAP_SIZE).in_param.ret_code
        = cfg.MFC_OK)
    ∧ (mfc_ioctl cfg env0 dev mfc_ctx ioctl_cmd.IOCTL_MFC_DEC_INIT).mfc_ctx.state
        = inst_state.INST_STATE_DEC_INIT
    ∧ ∀ cmd, (cmd = ioctl_cmd.IOCTL_MFC_GET_IN_BUF ∨ cmd = ioctl_cmd.IOCTL_MFC_GET_PHYS_ADDR
          ∨ cmd = ioctl_cmd.IOCTL_MFC_GET_MMAP_SIZE) →
        (mfc_ioctl cfg env dev
            (mfc_ioctl cfg env0 dev mfc_ctx ioctl_cmd.IOCTL_MFC_DEC_INIT).mfc_ctx
            cmd).in_param.ret_code = cfg.MFC_STATE_INVALID := by
  have hin1 : ¬ env.copy_from_user_ret < 0 := by omega
  have hin2 : ¬ env0.copy_from_user_ret < 0 := by omega
  have hinit : (mfc_ioctl cfg env0 dev mfc_ctx ioctl_cmd.IOCTL_MFC_DEC_INIT).mfc_ctx.state
      = inst_state.INST_STATE_DEC_INIT := by
    simp [mfc_ioctl, mfc_ioctl_switch, mfc_ioctl_out, mfc_chk_inst_state,
      mfc_set_inst_state, hstate, hin2]
  refine ⟨⟨?_, ?_, ?_, ?_⟩, hinit, ?_⟩
  · simp [mfc_ioctl, mfc_ioctl_switch, mfc_ioctl_out, mfc_chk_inst_state, hstate, hin1]
  · simp [mfc_ioctl, mfc_ioctl_switch, mfc_ioctl_out, mfc_chk_inst_state, hstate, hin1]
  · simp [mfc_ioctl, mfc_ioctl_switch, mfc_ioctl_out, mfc_chk_inst_state, hstate, hin1]
  · simp [mfc_ioctl, mfc_ioctl_switch, mfc_ioctl_out, mfc_chk_inst_state, hstate, hin1]
  · intro cmd hcmd
    have hne : (mfc_ioctl cfg env0 dev mfc_ctx ioctl_cmd.IOCTL_MFC_DEC_INIT).mfc_ctx.state
        ≠ inst_state.INST_STATE_CREATED := by rw [hinit]; decide
    generalize (mfc_ioctl cfg env0 dev mfc_ctx ioctl_cmd.IOCTL_MFC_DEC_INIT).mfc_ctx = ctx1
      at hne
    rcases hcmd with h | h | h <;> subst h <;>
      simp [mfc_ioctl, mfc_ioctl_switch, mfc_ioctl_out, mfc_chk_inst_state, hne, hin1]

/-- Witness of C8: on a fresh session the size query answers MFC_OK (1 in the sample
build); after a decode-init that succeeded it answers MFC_STATE_INVALID (-4000). -/
theorem buffer_commands_state_check_witness :
    (mfc_ioctl sample_cfg (sample_env 1 1) (sample_dev 1) sample_ctx
        ioctl_cmd.IOCTL_MFC_GET_MMAP_SIZE).in_param.ret_code = 1
    ∧ (mfc_ioctl sample_cfg (sample_env 1 1) (sample_dev 1)
        (mfc_ioctl sample_cfg (sample_env 1 1) (sample_dev 1) sample_ctx
          ioctl_cmd.IOCTL_MFC_DEC_INIT).mfc_ctx
        ioctl_cmd.IOCTL_MFC_GET_MMAP_SIZE).in_param.ret_code = -4000 :=
  have h := buffer_commands_state_check sample_cfg (sample_env 1 1) (sample_env 1 1)
    (sample_dev 1) sample_ctx rfl (by decide) (by decide)
  ⟨h.1.2.2.2, h.2.2 ioctl_cmd.IOCTL_MFC_GET_MMAP_SIZE (Or.inr (Or.inr rfl))⟩

/-- Counterexample to C8 as stated, in the sample build (MFC_OK = 1, MFC_STATE_INVALID =
-4000).  On a freshly created session, before any decode-init, allocate-buffer,
query-physical-address and query-total-mapped-size are answered MFC_OK, not
MFC_STATE_INVALID.  After a decode-init that succeeded (mfc_init_decoding answered MFC_OK)
the same three commands are answered MFC_STATE_INVALID. -/
theorem buffer_commands_accepted_before_decode_init :
    mfc_create_inst true = some sample_ctx
    ∧ (mfc_ioctl sample_cfg (sample_env 1 1) (sample_dev 1) sample_ctx
        ioctl_cmd.IOCTL_MFC_GET_IN_BUF).in_param.ret_code = sample_cfg.MFC_OK
    ∧ (mfc_ioctl sample_cfg (sample_env 1 1) (sample_dev 1) sample_ctx
        ioctl_cmd.IOCTL_MFC_GET_PHYS_ADDR).in_param.ret_code = sample_cfg.MFC_OK
    ∧ (mfc_ioctl sample_cfg (sample_env 1 1) (sample_dev 1) sample_ctx
        ioctl_cmd.IOCTL_MFC_GET_MMAP_SIZE).in_param.ret_code = sample_cfg.MFC_OK
    ∧ sample_cfg.MFC_OK ≠ sample_cfg.MFC_STATE_INVALID
    ∧ (mfc_ioctl sample_cfg (sample_env 1 1) (sample_dev 1) sample_ctx
        ioctl_cmd.IOCTL_MFC_DEC_INIT).ret = sample_cfg.MFC_OK
    ∧ (mfc_ioctl sample_cfg (sample_env 1 1) (sample_dev 1)
        (mfc_ioctl sample_cfg (sample_env 1 1) (sample_dev 1) sample_ctx
          ioctl_cmd.IOCTL_MFC_DEC_INIT).mfc_ctx
        ioctl_cmd.IOCTL_MFC_GET_IN_BUF).in_param.ret_code = sample_cfg.MFC_STATE_INVALID
    ∧ (mfc_ioctl sample_cfg (sample_env 1 1) (sample_dev 1)
        (mfc_ioctl sample_cfg (sample_env 1 1) (sample_dev 1) sample_ctx
          ioctl_cmd.IOCTL_MFC_DEC_INIT).mfc_ctx
        ioctl_cmd.IOCTL_MFC_GET_PHYS_ADDR).in_param.ret_code = sample_cfg.MFC_STATE_INVALID
    ∧ (mfc_ioctl sample_cfg (sample_env 1 1) (sample_dev 1)
        (mfc_ioctl sample_cfg (sample_env 1 1) (sample_dev 1) sample_ctx
          ioctl_cmd.IOCTL_MFC_DEC_INIT).mfc_ctx
        ioctl_cmd.IOCTL_MFC_GET_MMAP_SIZE).in_param.ret_code
        = sample_cfg.MFC_STATE_INVALID := by
  refine ⟨rfl, rfl, rfl, rfl, by decide, rfl, rfl, rfl, rfl⟩

/-- C9 (as the code has it): along every sequence of commands dispatched on a freshly
created session the state never moves backwards in the order Created, DecodeInitialized,
DecodeExecuting.  A call changes the state only as a decode-init issued in state Created
(to DecodeInitialized, whatever mfc_init_decoding returned) or as a decode-exec (to
DecodeExecuting, from any state, whatever mfc_exec_decoding returned).  So the session is
in state DecodeInitialized only after a decode-init command and in state DecodeExecuting
only after a decode-exec command. -/
theorem session_state_only_advances (cfg : Config) (dev : mfc_dev) (mfc_ctx : mfc_inst_ctx)
    (pre : List (ioctl_cmd × ioctl_env)) (cmd : ioctl_cmd) (env : ioctl_env)
    (hfresh : mfc_ctx.state = inst_state.INST_STATE_CREATED) :
    (ioctl_run cfg dev mfc_ctx pre).state.rank
        ≤ (mfc_ioctl cfg env dev (ioctl_run cfg dev mfc_ctx pre) cmd).mfc_ctx.state.rank
    ∧ ((mfc_ioctl cfg env dev (ioctl_run cfg dev mfc_ctx pre) cmd).mfc_ctx.state
          ≠ (ioctl_run cfg dev mfc_ctx pre).state →
        (cmd = ioctl_cmd.IOCTL_MFC_DEC_INIT
          ∧ (ioctl_run cfg dev mfc_ctx pre).state = inst_state.INST_STATE_CREATED
          ∧ (mfc_ioctl cfg env dev (ioctl_run cfg dev mfc_ctx pre) cmd).mfc_ctx.state
              = inst_state.INST_STATE_DEC_INIT)
        ∨ (cmd = ioctl_cmd.IOCTL_MFC_DEC_EXE
          ∧ (mfc_ioctl cfg env dev (ioctl_run cfg dev mfc_ctx pre) cmd).mfc_ctx.state
              = inst_state.INST_STATE_DEC_EXE))
    ∧ ((ioctl_run cfg dev mfc_ctx pre).state = inst_state.INST_STATE_DEC_INIT →
        ∃ e, (ioctl_cmd.IOCTL_MFC_DEC_INIT, e) ∈ pre)
    ∧ ((ioctl_run cfg dev mfc_ctx pre).state = inst_state.INST_STATE_DEC_EXE →
        ∃ e, (ioctl_cmd.IOCTL_MFC_DEC_EXE, e) ∈ pre) := by
  have hstep := mfc_ioctl_state_step cfg env dev (ioctl_run cfg dev mfc_ctx pre) cmd
  have horigin := ioctl_run_state_origin cfg dev pre mfc_ctx
  refine ⟨?_, ?_, ?_, ?_⟩
  · rcases hstep with h | ⟨_, h0, h1⟩ | ⟨_, h1⟩
    · rw [h]
    · rw [h0, h1]; decide
    · rw [h1]
      cases (ioctl_run cfg dev mfc_ctx pre).state <;> decide
  · intro hne
    rcases hstep with h | h | h
    · exact absurd h hne
    · exact Or.inl h
    · exact Or.inr h
  · intro h
    rcases horigin.1 h with h1 | h1
    · rw [hfresh] at h1; exact absurd h1 (by decide)
    · exact h1
  · intro h
    rcases horigin.2 h with h1 | h1
    · rw [hfresh] at h1; exact absurd h1 (by decide)
    · exact h1

/-- Witness of C9: a fresh session after a decode-init, then a decode-exec. -/
theorem session_state_only_advances_witness :
    (ioctl_run sample_cfg (sample_dev 1) sample_ctx
        [(ioctl_cmd.IOCTL_MFC_DEC_INIT, sample_env 1 1)]).state.rank
      ≤ (mfc_ioctl sample_cfg (sample_env 1 1) (sample_dev 1)
          (ioctl_run sample_cfg (sample_dev 1) sample_ctx
            [(ioctl_cmd.IOCTL_MFC_DEC_INIT, sample_env 1 1)])
          ioctl_cmd.IOCTL_MFC_DEC_EXE).mfc_ctx.state.rank
    ∧ ∃ e, (ioctl_cmd.IOCTL_MFC_DEC_INIT, e)
        ∈ [(ioctl_cmd.IOCTL_MFC_DEC_INIT, sample_env 1 1)] :=
  have h := session_state_only_advances sample_cfg (sample_dev 1) sample_ctx
    [(ioctl_cmd.IOCTL_MFC_DEC_INIT, sample_env 1 1)] ioctl_cmd.IOCTL_MFC_DEC_EXE
    (sample_env 1 1) rfl
  ⟨h.1, h.2.2.1 rfl⟩

/-- Counterexample to C9 as stated, in the sample build (MFC_OK = 1).  A decode-init whose
mfc_init_decoding fails (-2000) still moves a fresh session to DecodeInitialized; and a
decode-exec as the very first command moves a fresh session to DecodeExecuting although no
decode-init was ever issued. -/
theorem session_state_advances_without_success :
    mfc_create_inst true = some sample_ctx
    ∧ (sample_env (-2000) 1).init_decoding_ret ≠ sample_cfg.MFC_OK
    ∧ (ioctl_run sample_cfg (sample_dev 1) sample_ctx
        [(ioctl_cmd.IOCTL_MFC_DEC_INIT, sample_env (-2000) 1)]).state
        = inst_state.INST_STATE_DEC_INIT
    ∧ (ioctl_run sample_cfg (sample_dev 1) sample_ctx
        [(ioctl_cmd.IOCTL_MFC_DEC_EXE, sample_env 1 1)]).state
        = inst_state.INST_STATE_DEC_EXE := by
  refine ⟨rfl, by decide, rfl, rfl⟩

/-! ## The device lock in mfc_ioctl -/

theorem lock_after_append (held : Bool) (a b : List Event) :
    lock_after held (a ++ b) = lock_after (lock_after held a) b := by
  induction a generalizing held with
  | nil => simp [lock_after]
  | cons e es ih => cases e <;> simp [lock_after, ih]

theorem copy_out_under_lock_append (held : Bool) (a b : List Event) :
    copy_out_under_lock held (a ++ b)
      = (copy_out_under_lock held a || copy_out_under_lock (lock_after held a) b) := by
  induction a generalizing held with
  | nil => simp [copy_out_under_lock, lock_after]
  | cons e es ih => cases e <;> simp [copy_out_under_lock, lock_after, ih, Bool.or_assoc]

theorem copy_in_under_lock_append (held : Bool) (a b : List Event) :
    copy_in_under_lock held (a ++ b)
      = (copy_in_under_lock held a || copy_in_under_lock (lock_after held a) b) := by
  induction a generalizing held with
  | nil => simp [copy_in_under_lock, lock_after]
  | cons e es ih => cases e <;> simp [copy_in_under_lock, lock_after, ih, Bool.or_assoc]

theorem lock_calls_append (a b : List Event) :
    lock_calls (a ++ b) = lock_calls a + lock_calls b := by
  induction a with
  | nil => simp [lock_calls]
  | cons e es ih => cases e <;> simp [lock_calls, ih]; omega

theorem unlock_calls_append (a b : List Event) :
    unlock_calls (a ++ b) = unlock_calls a + unlock_calls b := by
  induction a with
  | nil => simp [unlock_calls]
  | cons e es ih => cases e <;> simp [unlock_calls, ih]; omega

/-- The size loop of query-total-mapped-size only appends mfc_mem_data_size calls. -/
theorem mmap_size_loop_trace (env : ioctl_env) (ports : List Nat) (ret : Int)
    (trace : List Event) :
    (mmap_size_loop env ports (ret, trace)).2
      = trace ++ ports.map (fun (i : Nat) => Event.mfc_mem_data_size i (env.mem_data_size i)) := by
  induction ports generalizing ret trace with
  | nil => simp [mmap_size_loop]
  | cons i ports ih => simp [mmap_size_loop, ih]

/-- A run of mfc_mem_data_size calls does not touch the lock. -/
theorem size_calls_lock_after (env : ioctl_env) (ports : List Nat) (held : Bool) :
    lock_after held
      (ports.map (fun (i : Nat) => Event.mfc_mem_data_size i (env.mem_data_size i)))
      = held := by
  induction ports with
  | nil => simp [lock_after]
  | cons i ports ih => simp [lock_after, ih]

/-- A run of mfc_mem_data_size calls copies nothing out. -/
theorem size_calls_copy_out (env : ioctl_env) (ports : List Nat) (held : Bool) :
    copy_out_under_lock held
      (ports.map (fun (i : Nat) => Event.mfc_mem_data_size i (env.mem_data_size i)))
      = false := by
  induction ports with
  | nil => simp [copy_out_under_lock]
  | cons i ports ih => simp [copy_out_under_lock, ih]

/-- A run of mfc_mem_data_size calls copies nothing in. -/
theorem size_calls_copy_in (env : ioctl_env) (ports : List Nat) (held : Bool) :
    copy_in_under_lock held
      (ports.map (fun (i : Nat) => Event.mfc_mem_data_size i (env.mem_data_size i)))
      = false := by
  induction ports with
  | nil => simp [copy_in_under_lock]
  | cons i ports ih => simp [copy_in_under_lock, ih]

/-- A run of mfc_mem_data_size calls takes no lock. -/
theorem size_calls_lock_calls (env : ioctl_env) (ports : List Nat) :
    lock_calls
      (ports.map (fun (i : Nat) => Event.mfc_mem_data_size i (env.mem_data_size i)))
      = 0 := by
  induction ports with
  | nil => simp [lock_calls]
  | cons i ports ih => simp [lock_calls, ih]

/-- A run of mfc_mem_data_size calls releases no lock. -/
theorem size_calls_unlock_calls (env : ioctl_env) (ports : List Nat) :
    unlock_calls
      (ports.map (fun (i : Nat) => Event.mfc_mem_data_size i (env.mem_data_size i)))
      = 0 := by
  induction ports with
  | nil => simp [unlock_calls]
  | cons i ports ih => simp [unlock_calls, ih]

/-- C12 (as the code has it): mfc_ioctl entered with the lock free takes the lock before
copy_from_user, so the copy-in of the envelope is made with the lock held, for every
command, session and outcome.  When copy_from_user does not report failure and the command
is not a decode-init rejected for its state, every acquisition inside the call is matched by
a release, the lock is not held during the copy-out, and the lock is free when mfc_ioctl
returns. -/
theorem mfc_ioctl_lock_discipline (cfg : Config) (env : ioctl_env) (dev : mfc_dev)
    (mfc_ctx : mfc_inst_ctx) (cmd : ioctl_cmd) :
    copy_in_under_lock false (mfc_ioctl cfg env dev mfc_ctx cmd).trace = true
    ∧ (0 ≤ env.copy_from_user_ret →
        ¬ (cmd = ioctl_cmd.IOCTL_MFC_DEC_INIT
            ∧ mfc_ctx.state ≠ inst_state.INST_STATE_CREATED) →
        lock_after false (mfc_ioctl cfg env dev mfc_ctx cmd).trace = false
        ∧ copy_out_under_lock false (mfc_ioctl cfg env dev mfc_ctx cmd).trace = false
        ∧ lock_calls (mfc_ioctl cfg env dev mfc_ctx cmd).trace
            = unlock_calls (mfc_ioctl cfg env dev mfc_ctx cmd).trace) := by
  constructor
  · by_cases hin : env.copy_from_user_ret < 0
    · simp [mfc_ioctl, mfc_ioctl_out, hin, copy_in_under_lock]
    · by_cases hst : mfc_ctx.state = inst_state.INST_STATE_CREATED <;>
        cases cmd <;>
        simp [mfc_ioctl, mfc_ioctl_switch, mfc_ioctl_out, mfc_chk_inst_state, hin, hst,
          copy_in_under_lock, copy_in_under_lock_append, mmap_size_loop_trace,
          size_calls_copy_in]
  · intro hin hrej
    have hin1 : ¬ env.copy_from_user_ret < 0 := by omega
    by_cases hst : mfc_ctx.state = inst_state.INST_STATE_CREATED
    · cases cmd <;>
        simp [mfc_ioctl, mfc_ioctl_switch, mfc_ioctl_out, mfc_chk_inst_state, hin1, hst,
          lock_after, lock_after_append, copy_out_under_lock, copy_out_under_lock_append,
          lock_calls, lock_calls_append, unlock_calls, unlock_calls_append,
          mmap_size_loop_trace, size_calls_lock_after, size_calls_copy_out,
          size_calls_lock_calls, size_calls_unlock_calls]
    · cases cmd <;>
        simp [hst] at hrej <;>
        simp [mfc_ioctl, mfc_ioctl_switch, mfc_ioctl_out, mfc_chk_inst_state, hin1, hst,
          lock_after, lock_after_append, copy_out_under_lock, copy_out_under_lock_append,
          lock_calls, lock_calls_append, unlock_calls, unlock_calls_append,
          mmap_size_loop_trace, size_calls_lock_after, size_calls_copy_out,
          size_calls_lock_calls, size_calls_unlock_calls]

/-- Witness of C12: a decode-init accepted on a fresh session: the lock is taken twice and
released twice, it is not held during the copy-out and it is free at the return. -/
theorem mfc_ioctl_lock_discipline_witness :
    copy_in_under_lock false
        (mfc_ioctl sample_cfg (sample_env 1 1) (sample_dev 1) sample_ctx
          ioctl_cmd.IOCTL_MFC_DEC_INIT).trace = true
    ∧ lock_after false
        (mfc_ioctl sample_cfg (sample_env 1 1) (sample_dev 1) sample_ctx
          ioctl_cmd.IOCTL_MFC_DEC_INIT).trace = false
    ∧ copy_out_under_lock false
        (mfc_ioctl sample_cfg (sample_env 1 1) (sample_dev 1) sample_ctx
          ioctl_cmd.IOCTL_MFC_DEC_INIT).trace = false
    ∧ lock_calls
        (mfc_ioctl sample_cfg (sample_env 1 1) (sample_dev 1) sample_ctx
          ioctl_cmd.IOCTL_MFC_DEC_INIT).trace = 2 :=
  have h := mfc_ioctl_lock_discipline sample_cfg (sample_env 1 1) (sample_dev 1) sample_ctx
    ioctl_cmd.IOCTL_MFC_DEC_INIT
  have h2 := h.2 (by decide) (by decide)
  ⟨h.1, h2.1, h2.2.1, rfl⟩

/-- Counterexample to C12 as stated.  An unrecognized command with both copies succeeding:
the copy-in is made between the mutex_lock and the mutex_unlock at the head of mfc_ioctl,
so the lock is held during it.  A decode-init on a session in state DecodeInitialized (also
with both copies succeeding): the lock taken before the state check is not released on the
rejection, it is held during the copy-out and still held when mfc_ioctl returns, two
acquisitions against one release. -/
theorem mfc_ioctl_lock_held :
    (mfc_ioctl sample_cfg (sample_env 1 1) (sample_dev 1) sample_ctx
        (ioctl_cmd.other 0)).trace
      = [Event.mutex_lock, Event.copy_from_user 0, Event.mutex_unlock, Event.copy_to_user 0]
    ∧ copy_in_under_lock false
        (mfc_ioctl sample_cfg (sample_env 1 1) (sample_dev 1) sample_ctx
          (ioctl_cmd.other 0)).trace = true
    ∧ (mfc_ioctl sample_cfg (sample_env 1 1) (sample_dev 1)
        ⟨0, inst_state.INST_STATE_DEC_INIT, 0⟩ ioctl_cmd.IOCTL_MFC_DEC_INIT).trace
      = [Event.mutex_lock, Event.copy_from_user 0, Event.mutex_unlock, Event.mutex_lock,
         Event.copy_to_user 0]
    ∧ copy_out_under_lock false
        (mfc_ioctl sample_cfg (sample_env 1 1) (sample_dev 1)
          ⟨0, inst_state.INST_STATE_DEC_INIT, 0⟩ ioctl_cmd.IOCTL_MFC_DEC_INIT).trace = true
    ∧ lock_after false
        (mfc_ioctl sample_cfg (sample_env 1 1) (sample_dev 1)
          ⟨0, inst_state.INST_STATE_DEC_INIT, 0⟩ ioctl_cmd.IOCTL_MFC_DEC_INIT).trace = true
    ∧ lock_calls
        (mfc_ioctl sample_cfg (sample_env 1 1) (sample_dev 1)
          ⟨0, inst_state.INST_STATE_DEC_INIT, 0⟩ ioctl_cmd.IOCTL_MFC_DEC_INIT).trace = 2
    ∧ unlock_calls
        (mfc_ioctl sample_cfg (sample_env 1 1) (sample_dev 1)
          ⟨0, inst_state.INST_STATE_DEC_INIT, 0⟩ ioctl_cmd.IOCTL_MFC_DEC_INIT).trace = 1 := by
  refine ⟨rfl, rfl, rfl, rfl, rfl, rfl, rfl⟩

/-! ## Mapping -/

/-- The end of mfc_mmap returns 0 and records the base. -/
theorem mfc_mmap_done_ret (mfc_ctx : mfc_inst_ctx) (vma : vm_area_struct)
    (real remap_offset remap_size : Nat) (trace : List MapEvent) :
    (mfc_mmap_done mfc_ctx vma real remap_offset remap_size trace).ret = 0
    ∧ (mfc_mmap_done mfc_ctx vma real remap_offset remap_size trace).mfc_ctx.userbase
        = vma.vm_start
    ∧ (mfc_mmap_done mfc_ctx vma real remap_offset remap_size trace).remap_offset
        = remap_offset
    ∧ (mfc_mmap_done mfc_ctx vma real remap_offset remap_size trace).remap_size
        = remap_size
    ∧ ((mfc_mmap_done mfc_ctx vma real remap_offset remap_size trace).warned = true
        ↔ ulong_add remap_offset remap_size < real) := by
  simp [mfc_mmap_done]

end Mfc
